import Mathlib

/-!
# FaceDx: the `/verify` face-identification endpoint

A shallow embedding of `app.post('/verify', ...)` of `src/backend/index.js`
(lines 576-740) and of the library calls it makes, of the middleware in front of
it (`authenticateJWT` and `authorize`, lines 465-495), of the photo update of
`/update-photo`, and of the upload filter of `routes/medical-records.js`.

Conventions of the embedding.

* JavaScript numbers that occur as distances are finite and are represented by
  their exact rational value; `Infinity`, the initial value of `minDistance`,
  is a separate constructor of `JSNumber`.  Arithmetic on them is exact.
* The external capabilities (`canvas.loadImage`, `faceapi.detectSingleFace`,
  `faceapi.euclideanDistance`, `User.find`) are fields of an environment `Env`;
  a rejected promise or a thrown exception is `Except.error` carrying
  `error.message`.
* `await Promise.all(batch.map(...))` yields the per-entry results in the order
  of the batch; the calls made are recorded in that same order.
* Every handler returns the HTTP response together with the list of external
  calls it made, oldest first.
-/

namespace FaceDx

/-! ## Data model -/

/-- A Node `Buffer`: its bytes. -/
abbrev Bytes := List Nat

/-- A face descriptor (`Float32Array`). -/
abbrev Descriptor := List ℚ

/-- A decoded image as returned by `canvas.loadImage`. -/
structure Image where
  width : Nat
  height : Nat
  data : Bytes
deriving DecidableEq, Repr

/-- The value of a `String` path of a document that the schema does not
require: the path is not set (`undefined`), or it is stored as `null`, or it
holds a string. -/
inductive StoredString where
  | undefined
  | null
  | value (s : String)
deriving DecidableEq, Repr

/-- A document of the `User` collection (`models/User.js`).  `name`,
`aadharNumber` and `password` are required by the schema; the other string
paths may be unset or `null`. -/
structure User where
  _id : String
  name : String
  aadharNumber : String
  password : String
  emergencyContact : StoredString
  bloodGroup : StoredString
  allergies : StoredString
  pastSurgery : StoredString
  otherMedicalConditions : StoredString
  photo : Option Bytes
deriving DecidableEq, Repr

/-- The file that `upload.single('photo')` attaches to the request. -/
structure UploadedFile where
  buffer : Option Bytes
deriving DecidableEq, Repr

/-- The part of the request that the `/verify` handler reads. -/
structure Request where
  file : Option UploadedFile
deriving DecidableEq, Repr

/-- A JSON value of a response body.  `base64 b` stands for the string
`b.toString('base64')`. -/
inductive JVal where
  | str (s : String)
  | base64 (b : Bytes)
  | null
deriving DecidableEq, Repr

/-- An HTTP response: status code and the fields of the JSON body, in order. -/
structure Response where
  status : Nat
  body : List (String × JVal)
deriving DecidableEq, Repr

/-- A JavaScript number as it occurs in `minDistance`. -/
inductive JSNumber where
  | finite (q : ℚ)
  | infinity
deriving DecidableEq, Repr

/-- The JavaScript comparison `a < b`. -/
def JSNumber.lt : JSNumber → JSNumber → Bool
  | .finite a, .finite b => decide (a < b)
  | .finite _, .infinity => true
  | .infinity, _ => false

/-- The JavaScript comparison `a > b`. -/
def JSNumber.gt (a b : JSNumber) : Bool := JSNumber.lt b a

/-- An external call made by the handler. -/
inductive Call where
  | loadImage (buffer : Bytes)
  | detectSingleFace (img : Image)
  | euclideanDistance (a b : Descriptor)
  | userFind
deriving DecidableEq, Repr

/-- The external collaborators of one `/verify` call.  `userFind` is the result
of `User.find({ photo: { $exists: true, $ne: null } })`, the gallery snapshot. -/
structure Env where
  loadImage : Bytes → Except String Image
  detectSingleFace : Image → Except String (Option Descriptor)
  euclideanDistance : Descriptor → Descriptor → Except String ℚ
  userFind : Except String (List User)

/-- The value `{ user, distance }` returned for a usable gallery entry. -/
structure MatchResult where
  user : User
  distance : ℚ
deriving DecidableEq, Repr

/-- The two loop variables `bestMatch` and `minDistance`. -/
structure Best where
  bestMatch : Option User
  minDistance : JSNumber
deriving DecidableEq, Repr

/-- What one run of the handler does: the response sent and the external calls
made, oldest first. -/
structure Run where
  response : Response
  calls : List Call
deriving DecidableEq, Repr

/-! ## `Number.prototype.toFixed(2)` -/

/-- The integer `n` for which `n / 100 - x` is as close to zero as possible,
the larger one when there are two (`x` is non-negative here). -/
def toFixedInteger (x : ℚ) : Nat := (⌊x * 100 + 1 / 2⌋).toNat

/-- Two decimal digits of a number below 100. -/
def twoDigits (n : Nat) : String :=
  if n < 10 then "0" ++ toString n else toString n

/-- Rendering of `x.toFixed(2)` for a finite `x` below `10^21`. -/
def toFixed2 (x : ℚ) : String :=
  let s := if x < 0 then "-" else ""
  let n := toFixedInteger (if x < 0 then -x else x)
  s ++ toString (n / 100) ++ "." ++ twoDigits (n % 100)

/-- The expression `((1 - minDistance) * 100)` on finite numbers, in exact
arithmetic.  The source evaluates it in IEEE doubles, rounding `1 - minDistance`
and the product; the rounded value can differ from the exact one in the last
rendered digit, so only properties that rounding preserves (bounds,
monotonicity, the values at 0, 0.45 and 0.6) are stated with it. -/
def confidenceValue (minDistance : ℚ) : ℚ := (1 - minDistance) * 100

/-- The expression `((1 - minDistance) * 100).toFixed(2)`. -/
def confidence : JSNumber → String
  | .finite d => toFixed2 (confidenceValue d)
  | .infinity => "-Infinity"

/-! ## Responses of `/verify` -/

/-- Line 582: no file, or a file without buffer. -/
def noPhotoResponse : Response :=
  ⟨400, [("message", .str "No photo provided or invalid file."),
         ("details", .str "Please ensure you have uploaded a valid image file.")]⟩

/-- Line 595: the upload is larger than 10 MB. -/
def fileTooLargeResponse : Response :=
  ⟨400, [("message", .str "Image file too large"),
         ("details", .str "Please upload an image smaller than 10MB")]⟩

/-- Line 617: no face in the uploaded image. -/
def noFaceResponse : Response :=
  ⟨400, [("message", .str "No face detected in the image"),
         ("details", .str "Please ensure the face is clearly visible and well-lit")]⟩

/-- Line 636: the gallery snapshot is empty. -/
def noUsersResponse : Response :=
  ⟨404, [("message", .str "No registered users found"),
         ("details", .str "No users with registered photos in the database")]⟩

/-- Line 700: no candidate, or the best distance is above the threshold. -/
def noMatchResponse : Response :=
  ⟨404, [("message", .str "No matching user found"),
         ("details", .str "Could not find a matching face in our database")]⟩

/-- Line 735: the `catch` of the handler; `errorMessage` is `error.message`. -/
def errorResponse (errorMessage : String) : Response :=
  ⟨500, [("message", .str "Error during face verification"),
         ("details", .str (if errorMessage = "" then
            "An unexpected error occurred during verification" else errorMessage))]⟩

/-- A property `key: value` of the object given to `res.json`, as
`JSON.stringify` writes it: a property whose value is `undefined` is dropped, a
`null` is kept as `null`, a string is kept. -/
def optionalField (key : String) : StoredString → List (String × JVal)
  | .undefined => []
  | .null => [(key, .null)]
  | .value s => [(key, .str s)]

/-- The expression `value || 'None'`: `undefined`, `null` and the empty string
are falsy. -/
def orNone : StoredString → String
  | .undefined => "None"
  | .null => "None"
  | .value s => if s = "" then "None" else s

/-- Lines 711-720: `userData`. -/
def userData (bestMatch : User) : List (String × JVal) :=
  [("name", .str bestMatch.name), ("aadharNumber", .str bestMatch.aadharNumber)]
    ++ optionalField "emergencyContact" bestMatch.emergencyContact
    ++ optionalField "bloodGroup" bestMatch.bloodGroup
    ++ [("allergies", .str (orNone bestMatch.allergies)),
        ("pastSurgery", .str (orNone bestMatch.pastSurgery)),
        ("otherMedicalConditions", .str (orNone bestMatch.otherMedicalConditions)),
        ("photo", match bestMatch.photo with
                  | some photo => .base64 photo
                  | none => .null)]

/-- Lines 706-731: the response for a match. -/
def matchResponse (bestMatch : User) (minDistance : JSNumber) : Response :=
  ⟨200, [("message", .str "Match found")] ++ userData bestMatch
          ++ [("confidence", .str (confidence minDistance ++ "%"))]⟩

/-! ## The batch scan -/

/-- Lines 652-682: the callback mapped over a batch.  Any exception is caught
and gives `null`. -/
def processUser (env : Env) (descriptor : Descriptor) (user : User) :
    Option MatchResult × List Call :=
  match user.photo with
  | none => (none, [])
  | some photo =>
    match env.loadImage photo with
    | .error _ => (none, [.loadImage photo])
    | .ok userImg =>
      match env.detectSingleFace userImg with
      | .error _ => (none, [.loadImage photo, .detectSingleFace userImg])
      | .ok none => (none, [.loadImage photo, .detectSingleFace userImg])
      | .ok (some userDescriptor) =>
        match env.euclideanDistance descriptor userDescriptor with
        | .error _ =>
          (none, [.loadImage photo, .detectSingleFace userImg,
                  .euclideanDistance descriptor userDescriptor])
        | .ok distance =>
          (some ⟨user, distance⟩,
           [.loadImage photo, .detectSingleFace userImg,
            .euclideanDistance descriptor userDescriptor])

/-- Lines 685-691: the body of `results.forEach`. -/
def considerResult (best : Best) (result : Option MatchResult) : Best :=
  match result with
  | some r =>
    if JSNumber.lt (.finite r.distance) best.minDistance then
      ⟨some r.user, .finite r.distance⟩
    else best
  | none => best

/-- Lines 647-692: the loop `for (let i = 0; i < users.length; i += batchSize)`,
from index `i` on. -/
def batchLoop (env : Env) (descriptor : Descriptor) (users : List User)
    (batchSize : Nat) (hb : 0 < batchSize) (i : Nat) (best : Best) (calls : List Call) :
    Best × List Call :=
  if i < users.length then
    let batch := (users.drop i).take batchSize
    let results := batch.map (processUser env descriptor)
    batchLoop env descriptor users batchSize hb (i + batchSize)
      ((results.map Prod.fst).foldl considerResult best)
      (calls ++ (results.map Prod.snd).flatten)
  else (best, calls)
termination_by users.length - i
decreasing_by omega

/-- Line 646. -/
def batchSize : Nat := 5

/-- Line 695. -/
def MATCH_THRESHOLD : ℚ := 6 / 10

/-- Lines 698-731: the decision on the outcome of the scan. -/
def decideMatch (threshold : ℚ) (best : Best) : Response :=
  match best.bestMatch with
  | none => noMatchResponse
  | some bestMatch =>
    if JSNumber.gt best.minDistance (.finite threshold) then noMatchResponse
    else matchResponse bestMatch best.minDistance

/-- Lines 642-731: the scan of the snapshot `users` in batches of `b`, and the
decision with threshold `threshold`. -/
def matchGallery (env : Env) (b : Nat) (hb : 0 < b) (threshold : ℚ)
    (descriptor : Descriptor) (users : List User) (calls : List Call) : Run :=
  let r := batchLoop env descriptor users b hb 0 ⟨none, .infinity⟩ calls
  ⟨decideMatch threshold r.1, r.2⟩

/-- The handler of `/verify` (lines 577-739), with the batch size and the
threshold as parameters.  The source has the constants `batchSize = 5` and
`MATCH_THRESHOLD = 0.6`, so only the instance `verify` below is a behaviour of
the code; the parameters serve to state that the response does not depend on
the batch size. -/
def verifyWith (b : Nat) (hb : 0 < b) (threshold : ℚ) (env : Env) (req : Request) : Run :=
  match req.file with
  | none => ⟨noPhotoResponse, []⟩
  | some file =>
    match file.buffer with
    | none => ⟨noPhotoResponse, []⟩
    | some buffer =>
      let fileSize := buffer.length
      if fileSize > 10 * 1024 * 1024 then ⟨fileTooLargeResponse, []⟩
      else
        match env.loadImage buffer with
        | .error e => ⟨errorResponse e, [.loadImage buffer]⟩
        | .ok img =>
          match env.detectSingleFace img with
          | .error e => ⟨errorResponse e, [.loadImage buffer, .detectSingleFace img]⟩
          | .ok none => ⟨noFaceResponse, [.loadImage buffer, .detectSingleFace img]⟩
          | .ok (some descriptor) =>
            match env.userFind with
            | .error e =>
              ⟨errorResponse e, [.loadImage buffer, .detectSingleFace img, .userFind]⟩
            | .ok users =>
              if users.length = 0 then
                ⟨noUsersResponse, [.loadImage buffer, .detectSingleFace img, .userFind]⟩
              else
                matchGallery env b hb threshold descriptor users
                  [.loadImage buffer, .detectSingleFace img, .userFind]

/-- The handler of `/verify` as written: batches of 5, threshold 0.6. -/
def verify (env : Env) (req : Request) : Run :=
  verifyWith batchSize (by decide) MATCH_THRESHOLD env req

/-! ## Notions used to state the properties -/

/-- The distance computed for a gallery entry, when the entry is usable, that
is when `processUser` does not give `null`. -/
def usableDistance (env : Env) (descriptor : Descriptor) (user : User) : Option ℚ :=
  (processUser env descriptor user).1.map MatchResult.distance

/-- One gallery entry of the scan: the entry is processed and its result is
considered. -/
def scanStep (env : Env) (descriptor : Descriptor) (best : Best) (user : User) : Best :=
  considerResult best (processUser env descriptor user).1

/-- The request carries a file within the size cap, the image decodes, a face
with descriptor `descriptor` is detected in it and `User.find` resolves to the
snapshot `users`: the handler gets as far as the scan of the gallery. -/
def ReachesMatching (env : Env) (req : Request) (descriptor : Descriptor)
    (users : List User) : Prop :=
  ∃ buffer img, req.file = some ⟨some buffer⟩ ∧ buffer.length ≤ 10 * 1024 * 1024 ∧
    env.loadImage buffer = .ok img ∧ env.detectSingleFace img = .ok (some descriptor) ∧
    env.userFind = .ok users

/-- The result kinds of the specification, with the internal error of its
failure outputs. -/
inductive ResultKind where
  | Identified
  | NoFaceDetected
  | NoGalleryMatch
  | InputError
  | InternalError
deriving DecidableEq, Repr

/-- The result kind of a response, by the status mapping of the specification:
200 is a match, 404 is no gallery match, 400 is no face detected or an input
error, anything else is an internal error. -/
def resultKind (r : Response) : ResultKind :=
  if r.status = 200 then .Identified
  else if r.status = 404 then .NoGalleryMatch
  else if r.status = 400 then
    if r = noFaceResponse then .NoFaceDetected else .InputError
  else .InternalError

/-- The environment `env` with the gallery snapshot `users`. -/
def withSnapshot (env : Env) (users : List User) : Env :=
  ⟨env.loadImage, env.detectSingleFace, env.euclideanDistance, .ok users⟩

/-- The confidence formula of the specification: `clamp((1 - d) * 100, 0, 100)`. -/
def clampedConfidence (distance : ℚ) : ℚ := max 0 (min 100 ((1 - distance) * 100))

/-! ## A small concrete gallery

Photos are single bytes, the descriptor of a photo with byte `n` is the
one-dimensional vector `[n / 100]`, and the distance of two one-dimensional
descriptors is the absolute value of their difference. -/

/-- A gallery entry with the given name and photo, and none of the optional
string paths set. -/
def sampleUser (name : String) (photo : Option Bytes) : User :=
  ⟨name, name, name, "", .undefined, .undefined, .undefined, .undefined, .undefined, photo⟩

/-- An environment over the gallery `gallery`. -/
def sampleEnv (gallery : List User) : Env where
  loadImage := fun b => if b = [] then .error "Unsupported image type" else .ok ⟨1, 1, b⟩
  detectSingleFace := fun img =>
    match img.data with
    | [n] => .ok (some [(n : ℚ) / 100])
    | _ => .ok none
  euclideanDistance := fun a b =>
    match a, b with
    | [x], [y] => .ok |x - y|
    | _, _ => .error "euclideanDistance: arr1.length !== arr2.length"
  userFind := .ok gallery

/-- The gallery A = 0.80, B = 0.45, C = 0.61 seen from the query `[0]`. -/
def sampleGallery : List User :=
  [sampleUser "A" (some [80]), sampleUser "B" (some [45]), sampleUser "C" (some [61])]

/-- A request whose photo is the single byte 0. -/
def sampleRequest : Request := ⟨some ⟨some [0]⟩⟩

/-- A gallery in which B and C tie at the minimum distance 0.45. -/
def tieGallery : List User :=
  [sampleUser "A" (some [80]), sampleUser "B" (some [45]), sampleUser "C" (some [45])]

/-- A gallery without any entry within the threshold. -/
def farGallery : List User :=
  [sampleUser "A" (some [80]), sampleUser "C" (some [61])]

/-- A request whose photo has two bytes, in which `sampleEnv` detects no face. -/
def facelessRequest : Request := ⟨some ⟨some [7, 7]⟩⟩

/-- A request whose photo is one byte longer than the cap of 10 MB. -/
def oversizedRequest : Request := ⟨some ⟨some (List.replicate (10 * 1024 * 1024 + 1) 0)⟩⟩

/-- A request whose photo has exactly 10 MB. -/
def fullSizeRequest : Request := ⟨some ⟨some (List.replicate (10 * 1024 * 1024) 0)⟩⟩

/-- A request whose photo is empty, which `sampleEnv` cannot decode. -/
def undecodableRequest : Request := ⟨some ⟨some []⟩⟩

/-- The sample environment with a gallery fetch that is rejected. -/
def offlineEnv : Env :=
  ⟨(sampleEnv []).loadImage, (sampleEnv []).detectSingleFace,
    (sampleEnv []).euclideanDistance, .error "connection refused"⟩

/-- A gallery whose first three entries are unusable (no photo, a photo that
does not decode, a photo without a face), followed by B = 0.45. -/
def damagedGallery : List User :=
  [sampleUser "X" none, sampleUser "Y" (some []), sampleUser "Z" (some [7, 7]),
    sampleUser "B" (some [45])]

/-- A gallery with one entry at distance 0 from the query `[0]`, between two
entries beyond the threshold. -/
def exactGallery : List User :=
  [sampleUser "A" (some [80])] ++ sampleUser "Q" (some [0]) :: [sampleUser "C" (some [61])]

/-! ## The middleware of `/verify` (lines 465-495 and 576) -/

/-- The payload decoded by `jwt.verify`, stored in `req.user`; a payload without
`role` has `role = none`. -/
structure TokenPayload where
  id : String
  role : Option String
deriving DecidableEq, Repr

/-- The request as the route receives it: the `Authorization` header and the
file that `upload.single('photo')` attaches to it. -/
structure RouteRequest where
  authorization : Option String
  file : Option UploadedFile
deriving DecidableEq, Repr

/-- What a middleware does: it calls `next()`, with the value it stored on the
request, or it sends a response and does not call `next`. -/
inductive Middleware (α : Type) where
  | next (value : α)
  | responded (response : Response)
deriving DecidableEq, Repr

/-- The parts of `s.split(' ')`, on the characters of `s`. -/
def splitSpaces : List Char → List (List Char)
  | [] => [[]]
  | c :: cs =>
    if c = ' ' then [] :: splitSpaces cs
    else
      match splitSpaces cs with
      | [] => [[c]]
      | part :: parts => (c :: part) :: parts

/-- The expression `authHeader.split(' ')[1]`; `none` is `undefined`. -/
def tokenOf (authHeader : String) : Option String :=
  ((splitSpaces authHeader.toList).get? 1).map String.mk

/-- Line 468. -/
def tokenMissingResponse : Response := ⟨401, [("message", .str "Access token is missing")]⟩

/-- Line 473. -/
def tokenMalformedResponse : Response := ⟨401, [("message", .str "Access token is malformed")]⟩

/-- Line 482. -/
def tokenInvalidResponse : Response := ⟨403, [("message", .str "Invalid or expired token")]⟩

/-- Line 491. -/
def accessDeniedResponse : Response :=
  ⟨403, [("message", .str "Access denied: incorrect role")]⟩

/-- Lines 465-485: `authenticateJWT`; `jwtVerify token` is
`jwt.verify(token, secret)`, which returns the decoded payload or throws. -/
def authenticateJWT (jwtVerify : String → Except String TokenPayload)
    (authorization : Option String) : Middleware TokenPayload :=
  match authorization with
  | none => .responded tokenMissingResponse
  | some authHeader =>
    if authHeader = "" then .responded tokenMissingResponse
    else
      match tokenOf authHeader with
      | none => .responded tokenMalformedResponse
      | some token =>
        if token = "" then .responded tokenMalformedResponse
        else
          match jwtVerify token with
          | .ok decoded => .next decoded
          | .error _ => .responded tokenInvalidResponse

/-- Lines 487-495: the middleware returned by `authorize(role)`. -/
def authorize (role : String) (user : TokenPayload) : Middleware Unit :=
  if user.role ≠ some role then .responded accessDeniedResponse else .next ()

/-- Line 576: the route `/verify`, that is `authenticateJWT`, then
`authorize('professional')`, then `upload.single('photo')` and the handler. -/
def verifyRoute (jwtVerify : String → Except String TokenPayload) (env : Env)
    (req : RouteRequest) : Run :=
  match authenticateJWT jwtVerify req.authorization with
  | .responded response => ⟨response, []⟩
  | .next user =>
    match authorize "professional" user with
    | .responded response => ⟨response, []⟩
    | .next _ => verify env ⟨req.file⟩

/-! ## The batches of the scan -/

/-- Lines 652-691: the body of the loop, on one batch. -/
def processBatch (env : Env) (descriptor : Descriptor) (state : Best × List Call)
    (batch : List User) : Best × List Call :=
  ((batch.map (fun u => (processUser env descriptor u).1)).foldl considerResult state.1,
    state.2 ++ (batch.map (fun u => (processUser env descriptor u).2)).flatten)

/-- Lines 647-648: the batches `users.slice(i, i + batchSize)` that the loop
visits from index `i` on. -/
def batches (users : List User) (batchSize : Nat) (hb : 0 < batchSize) (i : Nat) :
    List (List User) :=
  if i < users.length then
    (users.drop i).take batchSize :: batches users batchSize hb (i + batchSize)
  else []
termination_by users.length - i
decreasing_by omega

/-! ## The Euclidean distance -/

/-- Modelled from the spec: `faceapi.euclideanDistance` belongs to the face-api.js
library, which is not among the sources; the specification calls it the
Euclidean distance between two descriptors.  It throws when the lengths differ
and otherwise returns the square root of the sum of the squared differences;
`sqrt` stands for `Math.sqrt`. -/
def euclideanDistance (sqrt : ℚ → ℚ) (arr1 arr2 : Descriptor) : Except String ℚ :=
  if arr1.length ≠ arr2.length then .error "euclideanDistance: arr1.length !== arr2.length"
  else .ok (sqrt (List.zipWith (fun x y => (x - y) ^ 2) arr1 arr2).sum)

/-! ## The medical-record upload filter (`routes/medical-records.js`, lines 40-49) -/

/-- The call of `cb` made by `fileFilter`: `cb(null, true)` is `.ok true`,
`cb(new Error(message), false)` is `.error message`. -/
def fileFilter (mimetype : String) : Except String Bool :=
  if mimetype = "image/jpeg" ∨ mimetype = "image/png" ∨ mimetype = "application/pdf" then
    .ok true
  else .error "Invalid file type. Only JPEG, PNG, and PDF files are allowed."

/-! ## The server as a sequence of calls over the `User` collection -/

/-- The query `User.find({ photo: { $exists: true, $ne: null } })` on a collection. -/
def findWithPhoto (collection : List User) : List User :=
  collection.filter (fun u => u.photo.isSome)

/-- The assignment `user.photo = req.file.buffer`. -/
def setPhoto (user : User) (photo : Bytes) : User :=
  ⟨user._id, user.name, user.aadharNumber, user.password, user.emergencyContact,
    user.bloodGroup, user.allergies, user.pastSurgery, user.otherMedicalConditions, some photo⟩

/-- Lines 549-556 of `/update-photo`: the document found by `findById` gets the
new photo and is saved. -/
def updatePhoto : List User → String → Bytes → List User
  | [], _, _ => []
  | u :: rest, id, photo =>
    if u._id = id then setPhoto u photo :: rest else u :: updatePhoto rest id photo

/-- A call received by the server. -/
inductive ServerRequest where
  | verify (req : Request)
  | updatePhoto (id : String) (photo : Bytes)
deriving DecidableEq, Repr

/-- One call on the server: the collection after the call and the response.
The only state kept between calls is the collection. -/
def serve (api : Env) (collection : List User) : ServerRequest → List User × Response
  | .verify req => (collection, (verify (withSnapshot api (findWithPhoto collection)) req).response)
  | .updatePhoto id photo =>
    if collection.any (fun u => u._id = id) then
      (updatePhoto collection id photo,
        ⟨200, [("message", .str "Photo updated successfully"), ("photo", .base64 photo)]⟩)
    else (collection, ⟨404, [("message", .str "User not found")]⟩)

/-- The collection after a sequence of calls. -/
def collectionAfter (api : Env) (collection : List User) (history : List ServerRequest) :
    List User :=
  history.foldl (fun c r => (serve api c r).1) collection

/-- A token verification that accepts the token `good` as the professional
`pro`, the token `user` as an ordinary user, and rejects every other token. -/
def sampleJwtVerify (token : String) : Except String TokenPayload :=
  if token = "good" then .ok ⟨"pro", some "professional"⟩
  else if token = "user" then .ok ⟨"u1", some "user"⟩
  else .error "invalid signature"

/-- Whether a call changes the collection. -/
def ServerRequest.isUpdate : ServerRequest → Bool
  | .verify _ => false
  | .updatePhoto _ _ => true

/-- The ten keys of the object passed to `res.json` at lines 727-731. -/
def matchBodyKeys : List String :=
  ["message", "name", "aadharNumber", "emergencyContact", "bloodGroup", "allergies",
    "pastSurgery", "otherMedicalConditions", "photo", "confidence"]

/-- The record `user` with another stored password hash. -/
def setPassword (user : User) (password : String) : User :=
  ⟨user._id, user.name, user.aadharNumber, password, user.emergencyContact,
    user.bloodGroup, user.allergies, user.pastSurgery, user.otherMedicalConditions, user.photo⟩

/-- A record stored with `emergencyContact: null`, a blood group, an empty
`allergies` string and `pastSurgery: null`, at distance 0.30 from the query
`[0]`. -/
def nullFieldUser : User :=
  ⟨"N", "N", "N", "hash", .null, .value "O+", .value "", .null, .undefined, some [30]⟩

/-- The gallery made of that record alone. -/
def nullFieldGallery : List User := [nullFieldUser]

/-! ## The scan as a fold over the snapshot -/

theorem batchSize_pos : 0 < batchSize := by decide

theorem processUser_fst (env : Env) (q : Descriptor) (u : User) :
    (processUser env q u).1 = (usableDistance env q u).map (MatchResult.mk u) := by
  unfold usableDistance processUser
  split
  · rfl
  · split
    · rfl
    · split
      · rfl
      · rfl
      · split <;> rfl

theorem batchLoop_fst (env : Env) (q : Descriptor) (users : List User) (b : Nat) (hb : 0 < b) :
    ∀ (n i : Nat) (best : Best) (calls : List Call), users.length - i = n →
      (batchLoop env q users b hb i best calls).1 = (users.drop i).foldl (scanStep env q) best := by
  intro n
  induction n using Nat.strong_induction_on with
  | _ n ih =>
    intro i best calls hn
    rw [batchLoop]
    split
    · next h =>
      simp only []
      rw [ih (users.length - (i + b)) (by omega) (i + b) _ _ rfl]
      rw [List.map_map, List.foldl_map]
      have : users.drop (i + b) = (users.drop i).drop b := by
        rw [List.drop_drop]
      rw [this]
      conv_rhs => rw [← List.take_append_drop b (users.drop i), List.foldl_append]
      rfl
    · next h =>
      have : users.drop i = [] := List.drop_eq_nil_of_le (by omega)
      simp [this]

theorem batchLoop_snd (env : Env) (q : Descriptor) (users : List User) (b : Nat) (hb : 0 < b) :
    ∀ (n i : Nat) (best : Best) (calls : List Call), users.length - i = n →
      (batchLoop env q users b hb i best calls).2 =
        calls ++ ((users.drop i).map (fun u => (processUser env q u).2)).flatten := by
  intro n
  induction n using Nat.strong_induction_on with
  | _ n ih =>
    intro i best calls hn
    rw [batchLoop]
    split
    · next h =>
      simp only []
      rw [ih (users.length - (i + b)) (by omega) (i + b) _ _ rfl]
      have : users.drop (i + b) = (users.drop i).drop b := by
        rw [List.drop_drop]
      rw [this, List.map_map, List.append_assoc, ← List.flatten_append]
      conv_rhs => rw [← List.take_append_drop b (users.drop i), List.map_append]
      rfl
    · next h =>
      have : users.drop i = [] := List.drop_eq_nil_of_le (by omega)
      simp [this]

theorem scanStep_none {env : Env} {q : Descriptor} {u : User} (best : Best)
    (h : usableDistance env q u = none) : scanStep env q best u = best := by
  simp [scanStep, processUser_fst, h, considerResult]

theorem scanStep_some {env : Env} {q : Descriptor} {u : User} {d : ℚ} (best : Best)
    (h : usableDistance env q u = some d) :
    scanStep env q best u =
      if JSNumber.lt (.finite d) best.minDistance then ⟨some u, .finite d⟩ else best := by
  simp [scanStep, processUser_fst, h, considerResult]

theorem foldl_scanStep_unusable (env : Env) (q : Descriptor) :
    ∀ (l : List User) (best : Best), (∀ u ∈ l, usableDistance env q u = none) →
      l.foldl (scanStep env q) best = best := by
  intro l
  induction l with
  | nil => intro best _; rfl
  | cons a t ih =>
    intro best h
    rw [List.foldl_cons, scanStep_none best (h a (List.mem_cons_self a t))]
    exact ih best (fun u hu => h u (List.mem_cons_of_mem a hu))

theorem foldl_scanStep_above (env : Env) (q : Descriptor) (d : ℚ) :
    ∀ (l : List User) (best : Best),
      (∀ u ∈ l, ∀ e, usableDistance env q u = some e → d < e) →
      JSNumber.lt (.finite d) best.minDistance = true →
      JSNumber.lt (.finite d) (l.foldl (scanStep env q) best).minDistance = true := by
  intro l
  induction l with
  | nil => intro best _ hb; exact hb
  | cons a t ih =>
    intro best h hb
    rw [List.foldl_cons]
    apply ih _ (fun u hu => h u (List.mem_cons_of_mem a hu))
    cases ha : usableDistance env q a with
    | none => rw [scanStep_none best ha]; exact hb
    | some e =>
      rw [scanStep_some best ha]
      split
      · simpa [JSNumber.lt] using h a (List.mem_cons_self a t) e ha
      · exact hb

theorem foldl_scanStep_keep (env : Env) (q : Descriptor) (w : User) (d : ℚ) :
    ∀ (l : List User), (∀ u ∈ l, ∀ e, usableDistance env q u = some e → d ≤ e) →
      l.foldl (scanStep env q) ⟨some w, .finite d⟩ = ⟨some w, .finite d⟩ := by
  intro l
  induction l with
  | nil => intro _; rfl
  | cons a t ih =>
    intro h
    rw [List.foldl_cons]
    have ht := ih (fun u hu => h u (List.mem_cons_of_mem a hu))
    cases ha : usableDistance env q a with
    | none => rw [scanStep_none _ ha]; exact ht
    | some e =>
      have hle := h a (List.mem_cons_self a t) e ha
      rw [scanStep_some _ ha]
      have : JSNumber.lt (.finite e) (.finite d) = false := by
        simpa [JSNumber.lt] using hle
      simp only [this]
      exact ht

/-- The entry at the head of `l₂` is the first one of `l₁ ++ l₂` that attains
the minimum distance `d`. -/
theorem foldl_scanStep_first_min (env : Env) (q : Descriptor) (l₁ l₂ : List User) (w : User)
    (d : ℚ) (hw : usableDistance env q w = some d)
    (h₁ : ∀ u ∈ l₁, ∀ e, usableDistance env q u = some e → d < e)
    (h₂ : ∀ u ∈ l₂, ∀ e, usableDistance env q u = some e → d ≤ e) :
    (l₁ ++ w :: l₂).foldl (scanStep env q) ⟨none, .infinity⟩ = ⟨some w, .finite d⟩ := by
  rw [List.foldl_append, List.foldl_cons, scanStep_some _ hw,
    if_pos (foldl_scanStep_above env q d l₁ ⟨none, .infinity⟩ h₁ rfl)]
  exact foldl_scanStep_keep env q w d l₂ h₂

/-- A snapshot with a usable entry has a first entry of minimum distance. -/
theorem exists_first_min (env : Env) (q : Descriptor) :
    ∀ (l : List User), (∃ u ∈ l, ∃ e, usableDistance env q u = some e) →
      ∃ l₁ w l₂ d, l = l₁ ++ w :: l₂ ∧ usableDistance env q w = some d ∧
        (∀ u ∈ l₁, ∀ e, usableDistance env q u = some e → d < e) ∧
        (∀ u ∈ l₂, ∀ e, usableDistance env q u = some e → d ≤ e) := by
  intro l
  induction l with
  | nil => rintro ⟨u, hu, _⟩; simp at hu
  | cons a t ih =>
    intro _
    by_cases ht : ∃ u ∈ t, ∃ e, usableDistance env q u = some e
    · obtain ⟨l₁, w, l₂, d, rfl, hw, h₁, h₂⟩ := ih ht
      by_cases ha : ∃ e, usableDistance env q a = some e ∧ e ≤ d
      · obtain ⟨e, hae, hed⟩ := ha
        refine ⟨[], a, l₁ ++ w :: l₂, e, rfl, hae, by simp, ?_⟩
        intro u hu e' hu'
        rcases List.mem_append.1 hu with hu₁ | hu₂
        · exact le_of_lt (lt_of_le_of_lt hed (h₁ u hu₁ e' hu'))
        · rcases List.mem_cons.1 hu₂ with rfl | hu₃
          · rw [hw] at hu'; cases hu'; exact hed
          · exact le_trans hed (h₂ u hu₃ e' hu')
      · refine ⟨a :: l₁, w, l₂, d, rfl, hw, ?_, h₂⟩
        intro u hu e' hu'
        rcases List.mem_cons.1 hu with rfl | hu₁
        · by_contra hlt
          exact ha ⟨e', hu', not_lt.1 hlt⟩
        · exact h₁ u hu₁ e' hu'
    · cases ha : usableDistance env q a with
      | none =>
        exfalso
        rename_i hex
        obtain ⟨u, hu, e, he⟩ := hex
        rcases List.mem_cons.1 hu with rfl | hu₁
        · rw [ha] at he; cases he
        · exact ht ⟨u, hu₁, e, he⟩
      | some e =>
        refine ⟨[], a, t, e, rfl, ha, by simp, ?_⟩
        intro u hu e' hu'
        exact absurd ⟨u, hu, e', hu'⟩ ht

/-! ## The sample gallery -/


theorem reaches_sample (gallery : List User) :
    ReachesMatching (sampleEnv gallery) sampleRequest [0] gallery :=
  ⟨[0], ⟨1, 1, [0]⟩, rfl, by decide, rfl, by simp [sampleEnv], rfl⟩

theorem usableDistance_sample (gallery : List User) (name : String) (n : Nat) :
    usableDistance (sampleEnv gallery) [0] (sampleUser name (some [n])) = some ((n : ℚ) / 100) := by
  simp [usableDistance, processUser, sampleEnv, sampleUser, abs_of_nonneg, div_nonneg]

/-! ## The handler once the scan is reached -/

/-- The state of the scan after all batches, for any batch size. -/
theorem batchLoop_best (env : Env) (q : Descriptor) (users : List User) (b : Nat) (hb : 0 < b)
    (best : Best) (calls : List Call) :
    (batchLoop env q users b hb 0 best calls).1 = users.foldl (scanStep env q) best := by
  simpa using batchLoop_fst env q users b hb users.length 0 best calls rfl

/-- The scan either keeps its initial state, when no entry is usable, or ends
on the first entry of minimum distance. -/
theorem scan_cases (env : Env) (q : Descriptor) (users : List User) :
    (users.foldl (scanStep env q) ⟨none, .infinity⟩ = ⟨none, .infinity⟩ ∧
        ∀ u ∈ users, usableDistance env q u = none) ∨
      ∃ l₁ w l₂ d, users = l₁ ++ w :: l₂ ∧ usableDistance env q w = some d ∧
        (∀ u ∈ l₁, ∀ e, usableDistance env q u = some e → d < e) ∧
        (∀ u ∈ l₂, ∀ e, usableDistance env q u = some e → d ≤ e) ∧
        users.foldl (scanStep env q) ⟨none, .infinity⟩ = ⟨some w, .finite d⟩ := by
  by_cases h : ∃ u ∈ users, ∃ e, usableDistance env q u = some e
  · obtain ⟨l₁, w, l₂, d, rfl, hw, h₁, h₂⟩ := exists_first_min env q users h
    exact Or.inr ⟨l₁, w, l₂, d, rfl, hw, h₁, h₂, foldl_scanStep_first_min env q l₁ l₂ w d hw h₁ h₂⟩
  · have hnone : ∀ u ∈ users, usableDistance env q u = none := by
      intro u hu
      cases hd : usableDistance env q u with
      | none => rfl
      | some e => exact absurd ⟨u, hu, e, hd⟩ h
    exact Or.inl ⟨foldl_scanStep_unusable env q users _ hnone, hnone⟩

theorem first_min_le (env : Env) (q : Descriptor) (l₁ l₂ : List User) (w : User) (d : ℚ)
    (hw : usableDistance env q w = some d)
    (h₁ : ∀ u ∈ l₁, ∀ e, usableDistance env q u = some e → d < e)
    (h₂ : ∀ u ∈ l₂, ∀ e, usableDistance env q u = some e → d ≤ e) :
    ∀ u ∈ l₁ ++ w :: l₂, ∀ e, usableDistance env q u = some e → d ≤ e := by
  intro u hu e he
  rcases List.mem_append.1 hu with hu₁ | hu₂
  · exact le_of_lt (h₁ u hu₁ e he)
  · rcases List.mem_cons.1 hu₂ with rfl | hu₃
    · rw [hw] at he; cases he; exact le_refl _
    · exact h₂ u hu₃ e he

theorem decideMatch_none (t : ℚ) : decideMatch t ⟨none, .infinity⟩ = noMatchResponse := rfl

theorem decideMatch_some (t : ℚ) (w : User) (d : ℚ) :
    decideMatch t ⟨some w, .finite d⟩ =
      if t < d then noMatchResponse else matchResponse w (.finite d) := by
  simp [decideMatch, JSNumber.gt, JSNumber.lt]

/-- The response of the handler once the scan of the gallery is reached. -/
theorem verifyWith_response (b : Nat) (hb : 0 < b) (t : ℚ) (env : Env) (req : Request)
    (q : Descriptor) (users : List User) (h : ReachesMatching env req q users) :
    (verifyWith b hb t env req).response =
      if users.length = 0 then noUsersResponse
      else decideMatch t (users.foldl (scanStep env q) ⟨none, .infinity⟩) := by
  obtain ⟨buffer, img, hfile, hsize, himg, hdet, hfind⟩ := h
  unfold verifyWith
  simp only [hfile, himg, hdet, hfind]
  rw [if_neg (by omega)]
  split
  · rfl
  · simp only [matchGallery, batchLoop_best]

theorem verify_response (env : Env) (req : Request) (q : Descriptor) (users : List User)
    (h : ReachesMatching env req q users) :
    (verify env req).response =
      if users.length = 0 then noUsersResponse
      else decideMatch MATCH_THRESHOLD (users.foldl (scanStep env q) ⟨none, .infinity⟩) :=
  verifyWith_response batchSize batchSize_pos MATCH_THRESHOLD env req q users h

theorem matchResponse_status (w : User) (m : JSNumber) : (matchResponse w m).status = 200 := rfl

/-- C1: once the gallery scan is reached, `/verify` answers with a match (status
200) if and only if some usable entry of the snapshot has the minimum distance
over all usable entries and that minimum is at most 0.6. -/
theorem verify_match_iff (env : Env) (req : Request) (q : Descriptor) (users : List User)
    (h : ReachesMatching env req q users) :
    (verify env req).response.status = 200 ↔
      ∃ u ∈ users, ∃ d, usableDistance env q u = some d ∧
        (∀ v ∈ users, ∀ e, usableDistance env q v = some e → d ≤ e) ∧ d ≤ 6 / 10 := by
  rw [verify_response env req q users h]
  rcases scan_cases env q users with ⟨hfold, hnone⟩ | ⟨l₁, w, l₂, d, rfl, hw, h₁, h₂, hfold⟩
  · rw [hfold, decideMatch_none]
    constructor
    · intro hs
      split at hs <;> simp [noUsersResponse, noMatchResponse] at hs
    · rintro ⟨u, hu, d, hd, _⟩
      rw [hnone u hu] at hd
      cases hd
  · rw [hfold, decideMatch_some, if_neg (by simp)]
    have hmin := first_min_le env q l₁ l₂ w d hw h₁ h₂
    constructor
    · intro hs
      refine ⟨w, by simp, d, hw, hmin, ?_⟩
      by_contra hlt
      rw [if_pos (by simpa [MATCH_THRESHOLD] using hlt)] at hs
      simp [noMatchResponse] at hs
    · rintro ⟨u, hu, e, he, _, hle⟩
      have hde := hmin u hu e he
      rw [if_neg (by simp only [MATCH_THRESHOLD]; exact not_lt.2 (le_trans hde hle))]
      rfl

theorem verify_match_iff_witness :
    ReachesMatching (sampleEnv sampleGallery) sampleRequest [0] sampleGallery ∧
      ((verify (sampleEnv sampleGallery) sampleRequest).response.status = 200 ↔
        ∃ u ∈ sampleGallery, ∃ d, usableDistance (sampleEnv sampleGallery) [0] u = some d ∧
          (∀ v ∈ sampleGallery, ∀ e,
            usableDistance (sampleEnv sampleGallery) [0] v = some e → d ≤ e) ∧ d ≤ 6 / 10) :=
  ⟨reaches_sample sampleGallery,
    verify_match_iff (sampleEnv sampleGallery) sampleRequest [0] sampleGallery
      (reaches_sample sampleGallery)⟩

/-- C2: after all batches have been scanned, if the snapshot has a usable entry
then `bestMatch` is an entry of the snapshot, `minDistance` is its distance and
no usable entry has a smaller distance; if no entry is usable then `bestMatch`
is still `null` (and `minDistance` still `Infinity`). -/
theorem batchLoop_retains_minimum (env : Env) (q : Descriptor) (users : List User)
    (calls : List Call) :
    ((∃ u ∈ users, ∃ e, usableDistance env q u = some e) →
      ∃ w ∈ users, ∃ d, usableDistance env q w = some d ∧
        (batchLoop env q users batchSize batchSize_pos 0 ⟨none, .infinity⟩ calls).1 =
          ⟨some w, .finite d⟩ ∧
        ∀ v ∈ users, ∀ e, usableDistance env q v = some e → d ≤ e) ∧
    ((∀ u ∈ users, usableDistance env q u = none) →
      (batchLoop env q users batchSize batchSize_pos 0 ⟨none, .infinity⟩ calls).1 =
        ⟨none, .infinity⟩) := by
  rw [batchLoop_best]
  constructor
  · rintro ⟨u, hu, e, he⟩
    rcases scan_cases env q users with ⟨_, hnone⟩ | ⟨l₁, w, l₂, d, rfl, hw, h₁, h₂, hfold⟩
    · rw [hnone u hu] at he
      cases he
    · exact ⟨w, by simp, d, hw, hfold, first_min_le env q l₁ l₂ w d hw h₁ h₂⟩
  · intro hnone
    exact foldl_scanStep_unusable env q users _ hnone

/-- C3: when the entry at index `i` has the minimum distance `d` over the usable
entries and no entry at a smaller index has distance `d`, the scan ends with
`bestMatch` the entry at index `i`, whatever the batch size, and when `d` is
within the threshold `/verify` answers with that entry. -/
theorem verify_tie_first_in_snapshot_order (env : Env) (q : Descriptor) (users : List User)
    (i : Nat) (hi : i < users.length) (d : ℚ)
    (hd : usableDistance env q users[i] = some d)
    (hmin : ∀ v ∈ users, ∀ e, usableDistance env q v = some e → d ≤ e)
    (hfirst : ∀ j (hj : j < users.length), j < i → usableDistance env q users[j] ≠ some d) :
    (∀ (b : Nat) (hb : 0 < b) (calls : List Call),
      (batchLoop env q users b hb 0 ⟨none, .infinity⟩ calls).1 = ⟨some users[i], .finite d⟩) ∧
    (∀ req, ReachesMatching env req q users → d ≤ 6 / 10 →
      (verify env req).response = matchResponse users[i] (.finite d)) := by
  have hsplit : users = users.take i ++ users[i] :: users.drop (i + 1) := by
    rw [← List.drop_eq_getElem_cons hi, List.take_append_drop]
  have h₁ : ∀ u ∈ users.take i, ∀ e, usableDistance env q u = some e → d < e := by
    intro u hu e he
    obtain ⟨j, hj, rfl⟩ := List.mem_iff_getElem.1 hu
    have hji : j < i := by
      have := hj
      rw [List.length_take] at this
      omega
    rw [List.getElem_take] at he
    have hle := hmin _ (List.getElem_mem (by omega : j < users.length)) e he
    refine lt_of_le_of_ne hle ?_
    rintro rfl
    exact hfirst j (by omega) hji he
  have h₂ : ∀ u ∈ users.drop (i + 1), ∀ e, usableDistance env q u = some e → d ≤ e :=
    fun u hu e he => hmin u (List.mem_of_mem_drop hu) e he
  have hfold : users.foldl (scanStep env q) ⟨none, .infinity⟩ = ⟨some users[i], .finite d⟩ := by
    conv_lhs => rw [hsplit]
    exact foldl_scanStep_first_min env q _ _ _ d hd h₁ h₂
  constructor
  · intro b hb calls
    rw [batchLoop_best, hfold]
  · intro req hreach hle
    rw [verify_response env req q users hreach, if_neg (by omega), hfold, decideMatch_some,
      if_neg (by simp only [MATCH_THRESHOLD]; exact not_lt.2 hle)]

/-- C4: once the gallery scan is reached, if no usable entry of the snapshot has
a distance within the threshold 0.6 (the snapshot is empty, or every entry is
skipped, or every distance is larger) then `/verify` answers 404, which is the
result kind NoGalleryMatch, and never a match. -/
theorem verify_no_gallery_match (env : Env) (req : Request) (q : Descriptor)
    (users : List User) (h : ReachesMatching env req q users)
    (hno : ∀ u ∈ users, ∀ e, usableDistance env q u = some e → 6 / 10 < e) :
    (verify env req).response.status = 404 ∧
      resultKind (verify env req).response = ResultKind.NoGalleryMatch ∧
      ((verify env req).response = noUsersResponse ∨
        (verify env req).response = noMatchResponse) := by
  have key : (verify env req).response = noUsersResponse ∨
      (verify env req).response = noMatchResponse := by
    rw [verify_response env req q users h]
    split
    · exact Or.inl rfl
    · right
      rcases scan_cases env q users with ⟨hfold, _⟩ | ⟨l₁, w, l₂, d, rfl, hw, _, _, hfold⟩
      · rw [hfold, decideMatch_none]
      · rw [hfold, decideMatch_some,
          if_pos (by simpa [MATCH_THRESHOLD] using hno w (by simp) d hw)]
  rcases key with hk | hk <;> rw [hk] <;> simp [noUsersResponse, noMatchResponse, resultKind]

theorem matchResponse_confidence (w : User) (m : JSNumber) :
    (matchResponse w m).body.lookup "confidence" = some (.str (confidence m ++ "%")) := by
  cases hc : w.emergencyContact <;> cases hb : w.bloodGroup <;>
    simp [matchResponse, userData, optionalField, List.lookup, hc, hb]

theorem usableDistance_computed {env : Env} {q : Descriptor} {u : User} {e : ℚ}
    (h : usableDistance env q u = some e) : ∃ a b, env.euclideanDistance a b = .ok e := by
  unfold usableDistance processUser at h
  split at h
  · simp at h
  · split at h
    · simp at h
    · split at h
      · simp at h
      · simp at h
      · split at h
        · simp at h
        · next hdist =>
          simp at h
          exact ⟨_, _, h ▸ hdist⟩

/-- What a match looks like: the response of a run that ends with status 200. -/
theorem verify_match_shape (env : Env) (req : Request) (q : Descriptor) (users : List User)
    (h : ReachesMatching env req q users) (hs : (verify env req).response.status = 200) :
    ∃ w ∈ users, ∃ d, usableDistance env q w = some d ∧
      (∀ v ∈ users, ∀ e, usableDistance env q v = some e → d ≤ e) ∧ d ≤ 6 / 10 ∧
      (verify env req).response = matchResponse w (.finite d) := by
  rw [verify_response env req q users h] at hs ⊢
  split at hs
  · simp [noUsersResponse] at hs
  · rename_i hlen
    rw [if_neg hlen]
    rcases scan_cases env q users with ⟨hfold, _⟩ | ⟨l₁, w, l₂, d, rfl, hw, h₁, h₂, hfold⟩
    · rw [hfold, decideMatch_none] at hs
      simp [noMatchResponse] at hs
    · rw [hfold, decideMatch_some] at hs ⊢
      split at hs
      · simp [noMatchResponse] at hs
      · rename_i hlt
        rw [if_neg hlt]
        exact ⟨w, by simp, d, hw, first_min_le env q l₁ l₂ w d hw h₁ h₂,
          by simpa [MATCH_THRESHOLD] using hlt, rfl⟩

theorem clampedConfidence_eq (d : ℚ) (h0 : 0 ≤ d) (h1 : d ≤ 1) :
    clampedConfidence d = confidenceValue d := by
  unfold clampedConfidence confidenceValue
  rw [min_eq_right (by linarith), max_eq_right (by linarith)]

theorem toFixedInteger_le (c : ℚ) (h : c ≤ 100) : toFixedInteger c ≤ 10000 := by
  unfold toFixedInteger
  rw [Int.toNat_le]
  have : ⌊c * 100 + 1 / 2⌋ < 10001 := by
    rw [Int.floor_lt]
    push_cast
    linarith
  omega

/-- C6: when every distance that `faceapi.euclideanDistance` computes is
non-negative, the confidence reported with a match is the rendering of a number
of the interval [0, 100], and the rendered number of hundredths is at most
10000. -/
theorem verify_confidence_in_range (env : Env) (req : Request) (q : Descriptor)
    (users : List User) (h : ReachesMatching env req q users)
    (hnonneg : ∀ a b e, env.euclideanDistance a b = .ok e → 0 ≤ e)
    (hs : (verify env req).response.status = 200) :
    ∃ w ∈ users, ∃ d, usableDistance env q w = some d ∧
      (verify env req).response.body.lookup "confidence" =
        some (.str (toFixed2 ((1 - d) * 100) ++ "%")) ∧
      0 ≤ (1 - d) * 100 ∧ (1 - d) * 100 ≤ 100 ∧ toFixedInteger ((1 - d) * 100) ≤ 10000 := by
  obtain ⟨w, hw, d, hd, _, hle, hresp⟩ := verify_match_shape env req q users h hs
  obtain ⟨a, b, hab⟩ := usableDistance_computed hd
  have h0 : 0 ≤ d := hnonneg a b d hab
  refine ⟨w, hw, d, hd, ?_, by linarith, by linarith, toFixedInteger_le _ (by linarith)⟩
  rw [hresp, matchResponse_confidence]
  rfl

/-- C7: for every batch size `b ≥ 1`, every threshold, environment and request,
the handler run with batches of `b` sends the same response as the handler run
with batches of 5. -/
theorem verify_batch_size_irrelevant (b : Nat) (hb : 0 < b) (t : ℚ) (env : Env)
    (req : Request) :
    (verifyWith b hb t env req).response =
      (verifyWith batchSize batchSize_pos t env req).response := by
  unfold verifyWith
  simp only [matchGallery, batchLoop_best]
  iterate 8 (try any_goals split)
  all_goals rfl

theorem foldl_scanStep_skip (env : Env) (q : Descriptor) (l₁ l₂ : List User) (e : User)
    (best : Best) (hun : usableDistance env q e = none) :
    (l₁ ++ e :: l₂).foldl (scanStep env q) best = (l₁ ++ l₂).foldl (scanStep env q) best := by
  rw [List.foldl_append, List.foldl_append, List.foldl_cons, scanStep_none _ hun]

theorem reaches_withSnapshot {env : Env} {req : Request} {q : Descriptor}
    {users : List User} (h : ReachesMatching (withSnapshot env users) req q users)
    (others : List User) : ReachesMatching (withSnapshot env others) req q others := by
  obtain ⟨buffer, img, hfile, hsize, himg, hdet, _⟩ := h
  exact ⟨buffer, img, hfile, hsize, himg, hdet, rfl⟩

theorem scanStep_withSnapshot (env : Env) (users : List User) (q : Descriptor) :
    scanStep (withSnapshot env users) q = scanStep env q := rfl

theorem decideMatch_status (t : ℚ) (best : Best) :
    (decideMatch t best).status = 404 ∨ (decideMatch t best).status = 200 := by
  unfold decideMatch
  split
  · exact Or.inl rfl
  · split
    · exact Or.inl rfl
    · exact Or.inr rfl

/-- C8: for a query with descriptor `q` that reaches the scan, taking out of the
snapshot an entry that is unusable (its processing gives `null`) leaves the
result kind and the status unchanged, and leaves the whole response unchanged
unless the snapshot becomes empty. -/
theorem verify_skip_equivalence (env : Env) (req : Request) (q : Descriptor)
    (l₁ l₂ : List User) (e : User)
    (h : ReachesMatching (withSnapshot env (l₁ ++ e :: l₂)) req q (l₁ ++ e :: l₂))
    (hun : usableDistance env q e = none) :
    resultKind (verify (withSnapshot env (l₁ ++ l₂)) req).response =
        resultKind (verify (withSnapshot env (l₁ ++ e :: l₂)) req).response ∧
      (verify (withSnapshot env (l₁ ++ l₂)) req).response.status =
        (verify (withSnapshot env (l₁ ++ e :: l₂)) req).response.status ∧
      (l₁ ++ l₂ ≠ [] →
        (verify (withSnapshot env (l₁ ++ l₂)) req).response =
          (verify (withSnapshot env (l₁ ++ e :: l₂)) req).response) := by
  have hin : (verify (withSnapshot env (l₁ ++ e :: l₂)) req).response =
      decideMatch MATCH_THRESHOLD ((l₁ ++ l₂).foldl (scanStep env q) ⟨none, .infinity⟩) := by
    rw [verify_response _ req q _ h, if_neg (by simp), scanStep_withSnapshot,
      foldl_scanStep_skip env q l₁ l₂ e _ hun]
  have hout : (verify (withSnapshot env (l₁ ++ l₂)) req).response =
      if (l₁ ++ l₂).length = 0 then noUsersResponse
      else decideMatch MATCH_THRESHOLD ((l₁ ++ l₂).foldl (scanStep env q) ⟨none, .infinity⟩) := by
    rw [verify_response _ req q _ (reaches_withSnapshot h (l₁ ++ l₂)), scanStep_withSnapshot]
  rw [hin, hout]
  by_cases hnil : l₁ ++ l₂ = []
  · rw [hnil]
    simp [resultKind, noUsersResponse, noMatchResponse, decideMatch]
  · rw [if_neg (by simpa using hnil)]
    exact ⟨rfl, rfl, fun _ => rfl⟩

/-- C9: when the uploaded image decodes and no face is detected in it, `/verify`
answers 400 with the no-face response and `User.find` is not called. -/
theorem verify_no_face_skips_gallery (env : Env) (req : Request) (buffer : Bytes) (img : Image)
    (hfile : req.file = some ⟨some buffer⟩) (hsize : buffer.length ≤ 10 * 1024 * 1024)
    (himg : env.loadImage buffer = .ok img) (hdet : env.detectSingleFace img = .ok none) :
    (verify env req).response = noFaceResponse ∧ (verify env req).response.status = 400 ∧
      resultKind (verify env req).response = ResultKind.NoFaceDetected ∧
      Call.userFind ∉ (verify env req).calls := by
  have hrun : verify env req =
      ⟨noFaceResponse, [.loadImage buffer, .detectSingleFace img]⟩ := by
    unfold verify verifyWith
    simp only [hfile, himg, hdet]
    rw [if_neg (by omega)]
  rw [hrun]
  simp [noFaceResponse, resultKind]

theorem decideMatch_ne_fileTooLarge (t : ℚ) (best : Best) :
    decideMatch t best ≠ fileTooLargeResponse := by
  intro h
  have hs := congrArg Response.status h
  rcases decideMatch_status t best with h4 | h2
  · rw [h4] at hs; simp [fileTooLargeResponse] at hs
  · rw [h2] at hs; simp [fileTooLargeResponse] at hs

/-- C10: for a request with an uploaded buffer, `/verify` sends the
file-too-large response (status 400) exactly when the buffer is longer than
`10 * 1024 * 1024` bytes, and then it has made no external call at all: no
image decode, no detection; a buffer of exactly `10 * 1024 * 1024` bytes passes
the guard and is handed to `canvas.loadImage`. -/
theorem verify_size_guard (env : Env) (req : Request) (buffer : Bytes)
    (hfile : req.file = some ⟨some buffer⟩) :
    ((verify env req).response = fileTooLargeResponse ↔ 10 * 1024 * 1024 < buffer.length) ∧
      (10 * 1024 * 1024 < buffer.length →
        (verify env req).response.status = 400 ∧ (verify env req).calls = []) ∧
      (buffer.length = 10 * 1024 * 1024 →
        (verify env req).calls.head? = some (Call.loadImage buffer)) := by
  by_cases hsize : 10 * 1024 * 1024 < buffer.length
  · have hrun : verify env req = ⟨fileTooLargeResponse, []⟩ := by
      unfold verify verifyWith
      simp only [hfile]
      rw [if_pos hsize]
    rw [hrun]
    refine ⟨⟨fun _ => hsize, fun _ => rfl⟩, fun _ => ⟨rfl, rfl⟩, fun heq => ?_⟩
    omega
  · have hrun : (verify env req).response ≠ fileTooLargeResponse ∧
        (verify env req).calls.head? = some (Call.loadImage buffer) := by
      unfold verify verifyWith
      simp only [hfile]
      rw [if_neg (by simpa using hsize)]
      split
      · simp [errorResponse, fileTooLargeResponse]
      · split
        · simp [errorResponse, fileTooLargeResponse]
        · simp [noFaceResponse, fileTooLargeResponse]
        · split
          · simp [errorResponse, fileTooLargeResponse]
          · split
            · simp [noUsersResponse, fileTooLargeResponse]
            · refine ⟨decideMatch_ne_fileTooLarge _ _, ?_⟩
              simp only [matchGallery, batchLoop_snd env _ _ _ _ _ 0 _ _ rfl]
              rfl
    exact ⟨⟨fun hr => absurd hr hrun.1, fun hlt => absurd hlt hsize⟩,
      fun hlt => absurd hlt hsize, fun _ => hrun.2⟩

/-! ## The properties on the sample gallery -/

theorem sample_distance_nonneg (gallery : List User) (a b : Descriptor) (e : ℚ)
    (h : (sampleEnv gallery).euclideanDistance a b = .ok e) : 0 ≤ e := by
  unfold sampleEnv at h
  simp only at h
  split at h
  · cases h
    exact abs_nonneg _
  · cases h

theorem sample_fold :
    sampleGallery.foldl (scanStep (sampleEnv sampleGallery) [0]) ⟨none, .infinity⟩ =
      ⟨some (sampleUser "B" (some [45])), .finite (45 / 100)⟩ := by
  have hB := usableDistance_sample sampleGallery "B" 45
  have hA := usableDistance_sample sampleGallery "A" 80
  have hC := usableDistance_sample sampleGallery "C" 61
  refine foldl_scanStep_first_min (sampleEnv sampleGallery) [0] [sampleUser "A" (some [80])]
    [sampleUser "C" (some [61])] (sampleUser "B" (some [45])) (45 / 100)
    (by simpa using hB) ?_ ?_
  · intro u hu e he
    rw [List.mem_singleton] at hu
    subst hu
    rw [hA] at he
    cases he
    norm_num
  · intro u hu e he
    rw [List.mem_singleton] at hu
    subst hu
    rw [hC] at he
    cases he
    norm_num

theorem sample_response :
    (verify (sampleEnv sampleGallery) sampleRequest).response =
      matchResponse (sampleUser "B" (some [45])) (.finite (45 / 100)) := by
  rw [verify_response _ _ [0] _ (reaches_sample sampleGallery), if_neg (by decide), sample_fold,
    decideMatch_some, if_neg (by norm_num [MATCH_THRESHOLD])]

theorem verify_tie_first_in_snapshot_order_witness :
    (∀ (b : Nat) (hb : 0 < b) (calls : List Call),
      (batchLoop (sampleEnv tieGallery) [0] tieGallery b hb 0 ⟨none, .infinity⟩ calls).1 =
        ⟨some (sampleUser "B" (some [45])), .finite (45 / 100)⟩) ∧
    (∀ req, ReachesMatching (sampleEnv tieGallery) req [0] tieGallery → (45 / 100 : ℚ) ≤ 6 / 10 →
      (verify (sampleEnv tieGallery) req).response =
        matchResponse (sampleUser "B" (some [45])) (.finite (45 / 100))) :=
  verify_tie_first_in_snapshot_order (sampleEnv tieGallery) [0] tieGallery 1 (by decide)
    (45 / 100) (by simpa using usableDistance_sample tieGallery "B" 45)
    (by
      intro v hv e he
      simp only [tieGallery, List.mem_cons, List.mem_singleton, List.not_mem_nil, or_false] at hv
      rcases hv with rfl | rfl | rfl <;> rw [usableDistance_sample] at he <;> cases he <;>
        norm_num)
    (by
      intro j hj hj1
      have hj0 : j = 0 := by omega
      subst hj0
      have hA := usableDistance_sample tieGallery "A" 80
      intro he
      have : usableDistance (sampleEnv tieGallery) [0] (sampleUser "A" (some [80])) =
          some (45 / 100) := he
      rw [hA] at this
      norm_num at this)

theorem verify_no_gallery_match_witness :
    (verify (sampleEnv farGallery) sampleRequest).response.status = 404 ∧
      resultKind (verify (sampleEnv farGallery) sampleRequest).response =
        ResultKind.NoGalleryMatch ∧
      ((verify (sampleEnv farGallery) sampleRequest).response = noUsersResponse ∨
        (verify (sampleEnv farGallery) sampleRequest).response = noMatchResponse) :=
  verify_no_gallery_match (sampleEnv farGallery) sampleRequest [0] farGallery
    (reaches_sample farGallery)
    (by
      intro v hv e he
      simp only [farGallery, List.mem_cons, List.mem_singleton, List.not_mem_nil, or_false] at hv
      rcases hv with rfl | rfl <;> rw [usableDistance_sample] at he <;> cases he <;> norm_num)

theorem verify_confidence_in_range_witness :
    ∃ w ∈ sampleGallery, ∃ d, usableDistance (sampleEnv sampleGallery) [0] w = some d ∧
      (verify (sampleEnv sampleGallery) sampleRequest).response.body.lookup "confidence" =
        some (.str (toFixed2 ((1 - d) * 100) ++ "%")) ∧
      0 ≤ (1 - d) * 100 ∧ (1 - d) * 100 ≤ 100 ∧ toFixedInteger ((1 - d) * 100) ≤ 10000 :=
  verify_confidence_in_range (sampleEnv sampleGallery) sampleRequest [0] sampleGallery
    (reaches_sample sampleGallery) (sample_distance_nonneg sampleGallery)
    (by rw [sample_response]; rfl)

theorem verify_batch_size_irrelevant_witness :
    (0 < 1) ∧
      (verifyWith 1 (by decide) MATCH_THRESHOLD (sampleEnv sampleGallery) sampleRequest).response =
        (verifyWith batchSize batchSize_pos MATCH_THRESHOLD (sampleEnv sampleGallery)
          sampleRequest).response :=
  ⟨by decide, verify_batch_size_irrelevant 1 (by decide) MATCH_THRESHOLD
    (sampleEnv sampleGallery) sampleRequest⟩

theorem verify_skip_equivalence_witness :
    usableDistance (sampleEnv []) [0] (sampleUser "X" none) = none ∧
      resultKind (verify (withSnapshot (sampleEnv [])
          ([sampleUser "A" (some [80])] ++ [sampleUser "B" (some [45])])) sampleRequest).response =
        resultKind (verify (withSnapshot (sampleEnv [])
          ([sampleUser "A" (some [80])] ++ sampleUser "X" none :: [sampleUser "B" (some [45])]))
          sampleRequest).response ∧
      (verify (withSnapshot (sampleEnv [])
          ([sampleUser "A" (some [80])] ++ [sampleUser "B" (some [45])])) sampleRequest).response.status =
        (verify (withSnapshot (sampleEnv [])
          ([sampleUser "A" (some [80])] ++ sampleUser "X" none :: [sampleUser "B" (some [45])]))
          sampleRequest).response.status ∧
      ([sampleUser "A" (some [80])] ++ [sampleUser "B" (some [45])] ≠ [] →
        (verify (withSnapshot (sampleEnv [])
            ([sampleUser "A" (some [80])] ++ [sampleUser "B" (some [45])])) sampleRequest).response =
          (verify (withSnapshot (sampleEnv [])
            ([sampleUser "A" (some [80])] ++ sampleUser "X" none :: [sampleUser "B" (some [45])]))
            sampleRequest).response) :=
  ⟨rfl, verify_skip_equivalence (sampleEnv []) sampleRequest [0] [sampleUser "A" (some [80])]
    [sampleUser "B" (some [45])] (sampleUser "X" none) (reaches_sample _) rfl⟩

theorem verify_no_face_skips_gallery_witness :
    (verify (sampleEnv sampleGallery) facelessRequest).response = noFaceResponse ∧
      (verify (sampleEnv sampleGallery) facelessRequest).response.status = 400 ∧
      resultKind (verify (sampleEnv sampleGallery) facelessRequest).response =
        ResultKind.NoFaceDetected ∧
      Call.userFind ∉ (verify (sampleEnv sampleGallery) facelessRequest).calls :=
  verify_no_face_skips_gallery (sampleEnv sampleGallery) facelessRequest [7, 7] ⟨1, 1, [7, 7]⟩
    rfl (by decide) rfl rfl

theorem verify_size_guard_witness :
    (10 * 1024 * 1024 < (List.replicate (10 * 1024 * 1024 + 1) 0).length ∧
      (verify (sampleEnv sampleGallery) oversizedRequest).response = fileTooLargeResponse ∧
      (verify (sampleEnv sampleGallery) oversizedRequest).response.status = 400 ∧
      (verify (sampleEnv sampleGallery) oversizedRequest).calls = []) ∧
    ((List.replicate (10 * 1024 * 1024) 0).length = 10 * 1024 * 1024 ∧
      (verify (sampleEnv sampleGallery) fullSizeRequest).response ≠ fileTooLargeResponse ∧
      (verify (sampleEnv sampleGallery) fullSizeRequest).calls.head? =
        some (Call.loadImage (List.replicate (10 * 1024 * 1024) 0))) :=
  have hbig : 10 * 1024 * 1024 < (List.replicate (10 * 1024 * 1024 + 1) 0).length := by
    rw [List.length_replicate]; omega
  have hfull : (List.replicate (10 * 1024 * 1024) 0).length = 10 * 1024 * 1024 :=
    List.length_replicate _ _
  have hover := verify_size_guard (sampleEnv sampleGallery) oversizedRequest
    (List.replicate (10 * 1024 * 1024 + 1) 0) rfl
  have hcap := verify_size_guard (sampleEnv sampleGallery) fullSizeRequest
    (List.replicate (10 * 1024 * 1024) 0) rfl
  ⟨⟨hbig, hover.1.2 hbig, (hover.2.1 hbig).1, (hover.2.1 hbig).2⟩,
    ⟨hfull, fun hr => absurd (hcap.1.1 hr) (by rw [hfull]; omega), hcap.2.2 hfull⟩⟩

/-! ## The paths of the handler -/

theorem verify_of_no_file (env : Env) (req : Request) (h : req.file = none) :
    verify env req = ⟨noPhotoResponse, []⟩ := by
  unfold verify verifyWith
  simp only [h]

theorem verify_of_no_buffer (env : Env) (req : Request) (h : req.file = some ⟨none⟩) :
    verify env req = ⟨noPhotoResponse, []⟩ := by
  unfold verify verifyWith
  simp only [h]

theorem verify_of_oversize (env : Env) (req : Request) (buffer : Bytes)
    (hfile : req.file = some ⟨some buffer⟩) (hsize : 10 * 1024 * 1024 < buffer.length) :
    verify env req = ⟨fileTooLargeResponse, []⟩ := by
  unfold verify verifyWith
  simp only [hfile]
  rw [if_pos hsize]

theorem verify_of_load_error (env : Env) (req : Request) (buffer : Bytes) (e : String)
    (hfile : req.file = some ⟨some buffer⟩) (hsize : buffer.length ≤ 10 * 1024 * 1024)
    (himg : env.loadImage buffer = .error e) :
    verify env req = ⟨errorResponse e, [.loadImage buffer]⟩ := by
  unfold verify verifyWith
  simp only [hfile, himg]
  rw [if_neg (by omega)]

theorem verify_of_detect_error (env : Env) (req : Request) (buffer : Bytes) (img : Image)
    (e : String) (hfile : req.file = some ⟨some buffer⟩)
    (hsize : buffer.length ≤ 10 * 1024 * 1024) (himg : env.loadImage buffer = .ok img)
    (hdet : env.detectSingleFace img = .error e) :
    verify env req = ⟨errorResponse e, [.loadImage buffer, .detectSingleFace img]⟩ := by
  unfold verify verifyWith
  simp only [hfile, himg, hdet]
  rw [if_neg (by omega)]

theorem verify_of_no_face (env : Env) (req : Request) (buffer : Bytes) (img : Image)
    (hfile : req.file = some ⟨some buffer⟩) (hsize : buffer.length ≤ 10 * 1024 * 1024)
    (himg : env.loadImage buffer = .ok img) (hdet : env.detectSingleFace img = .ok none) :
    verify env req = ⟨noFaceResponse, [.loadImage buffer, .detectSingleFace img]⟩ := by
  unfold verify verifyWith
  simp only [hfile, himg, hdet]
  rw [if_neg (by omega)]

theorem verify_of_find_error (env : Env) (req : Request) (buffer : Bytes) (img : Image)
    (q : Descriptor) (e : String) (hfile : req.file = some ⟨some buffer⟩)
    (hsize : buffer.length ≤ 10 * 1024 * 1024) (himg : env.loadImage buffer = .ok img)
    (hdet : env.detectSingleFace img = .ok (some q)) (hfind : env.userFind = .error e) :
    verify env req =
      ⟨errorResponse e, [.loadImage buffer, .detectSingleFace img, .userFind]⟩ := by
  unfold verify verifyWith
  simp only [hfile, himg, hdet, hfind]
  rw [if_neg (by omega)]

theorem errorResponse_status (e : String) : (errorResponse e).status = 500 := rfl

theorem resultKind_errorResponse (e : String) :
    resultKind (errorResponse e) = ResultKind.InternalError := by
  simp [resultKind, errorResponse]

/-- The response of every run is one of the seven responses of the handler. -/
theorem verify_response_cases (env : Env) (req : Request) :
    (verify env req).response = noPhotoResponse ∨
      (verify env req).response = fileTooLargeResponse ∨
      (verify env req).response = noFaceResponse ∨
      (verify env req).response = noUsersResponse ∨
      (verify env req).response = noMatchResponse ∨
      (∃ e, (verify env req).response = errorResponse e) ∨
      ∃ w m, (verify env req).response = matchResponse w m := by
  rcases hf : req.file with _ | ⟨_ | buffer⟩
  · rw [verify_of_no_file env req hf]; exact Or.inl rfl
  · rw [verify_of_no_buffer env req hf]; exact Or.inl rfl
  · by_cases hsize : 10 * 1024 * 1024 < buffer.length
    · rw [verify_of_oversize env req buffer hf hsize]; exact Or.inr (Or.inl rfl)
    · have hle : buffer.length ≤ 10 * 1024 * 1024 := by omega
      rcases himg : env.loadImage buffer with e | img
      · rw [verify_of_load_error env req buffer e hf hle himg]
        exact Or.inr (Or.inr (Or.inr (Or.inr (Or.inr (Or.inl ⟨e, rfl⟩)))))
      · rcases hdet : env.detectSingleFace img with e | _ | q
        · rw [verify_of_detect_error env req buffer img e hf hle himg hdet]
          exact Or.inr (Or.inr (Or.inr (Or.inr (Or.inr (Or.inl ⟨e, rfl⟩)))))
        · rw [verify_of_no_face env req buffer img hf hle himg hdet]
          exact Or.inr (Or.inr (Or.inl rfl))
        · rcases hfind : env.userFind with e | users
          · rw [verify_of_find_error env req buffer img q e hf hle himg hdet hfind]
            exact Or.inr (Or.inr (Or.inr (Or.inr (Or.inr (Or.inl ⟨e, rfl⟩)))))
          · rw [verify_response env req q users ⟨buffer, img, hf, hle, himg, hdet, hfind⟩]
            split
            · exact Or.inr (Or.inr (Or.inr (Or.inl rfl)))
            · unfold decideMatch
              split
              · exact Or.inr (Or.inr (Or.inr (Or.inr (Or.inl rfl))))
              · split
                · exact Or.inr (Or.inr (Or.inr (Or.inr (Or.inl rfl))))
                · exact Or.inr (Or.inr (Or.inr (Or.inr (Or.inr (Or.inr ⟨_, _, rfl⟩)))))

/-- The calls of a run that reaches the scan: the calls of the handler up to the
gallery fetch, then those of every gallery entry in snapshot order. -/
theorem verify_calls (env : Env) (req : Request) (q : Descriptor) (users : List User)
    (h : ReachesMatching env req q users) :
    ∃ pre, (verify env req).calls =
      pre ++ (users.map (fun u => (processUser env q u).2)).flatten := by
  obtain ⟨buffer, img, hfile, hsize, himg, hdet, hfind⟩ := h
  refine ⟨[.loadImage buffer, .detectSingleFace img, .userFind], ?_⟩
  unfold verify verifyWith
  simp only [hfile, himg, hdet, hfind]
  rw [if_neg (by omega)]
  split
  · next hlen =>
    have : users = [] := List.length_eq_zero.1 hlen
    subst this
    rfl
  · simp only [matchGallery, batchLoop_snd env q users _ _ _ 0 _ _ rfl, List.drop_zero]

theorem processUser_loads_photo (env : Env) (q : Descriptor) (u : User) (p : Bytes)
    (hp : u.photo = some p) : Call.loadImage p ∈ (processUser env q u).2 := by
  unfold processUser
  simp only [hp]
  split
  · simp
  · split
    · simp
    · simp
    · split <;> simp

theorem processUser_of_no_photo (env : Env) (q : Descriptor) (u : User) (hp : u.photo = none) :
    (processUser env q u).1 = none := by
  unfold processUser
  simp only [hp]

theorem processUser_of_load_error (env : Env) (q : Descriptor) (u : User) (p : Bytes)
    (e : String) (hp : u.photo = some p) (hl : env.loadImage p = .error e) :
    (processUser env q u).1 = none := by
  unfold processUser
  simp only [hp, hl]

theorem processUser_of_detect_error (env : Env) (q : Descriptor) (u : User) (p : Bytes)
    (img : Image) (e : String) (hp : u.photo = some p) (hl : env.loadImage p = .ok img)
    (hd : env.detectSingleFace img = .error e) : (processUser env q u).1 = none := by
  unfold processUser
  simp only [hp, hl, hd]

theorem processUser_of_no_face (env : Env) (q : Descriptor) (u : User) (p : Bytes)
    (img : Image) (hp : u.photo = some p) (hl : env.loadImage p = .ok img)
    (hd : env.detectSingleFace img = .ok none) : (processUser env q u).1 = none := by
  unfold processUser
  simp only [hp, hl, hd]

theorem usableDistance_of_processUser_none {env : Env} {q : Descriptor} {u : User}
    (h : (processUser env q u).1 = none) : usableDistance env q u = none := by
  simp [usableDistance, h]

theorem foldl_scanStep_filter (env : Env) (q : Descriptor) :
    ∀ (l : List User) (best : Best),
      (l.filter (fun u => (usableDistance env q u).isSome)).foldl (scanStep env q) best =
        l.foldl (scanStep env q) best := by
  intro l
  induction l with
  | nil => intro best; rfl
  | cons a t ih =>
    intro best
    cases ha : usableDistance env q a with
    | none =>
      rw [List.filter_cons_of_neg (by simp [ha]), List.foldl_cons, scanStep_none best ha]
      exact ih best
    | some e =>
      rw [List.filter_cons_of_pos (by simp [ha]), List.foldl_cons, List.foldl_cons]
      exact ih _

theorem verify_status_of_reaches (env : Env) (req : Request) (q : Descriptor)
    (users : List User) (h : ReachesMatching env req q users) :
    (verify env req).response.status = 404 ∨ (verify env req).response.status = 200 := by
  rw [verify_response env req q users h]
  split
  · exact Or.inl rfl
  · exact decideMatch_status _ _

/-- C11: on a request within the size cap whose photo `canvas.loadImage` cannot
decode, the handler answers with the 500 of its `catch` (an internal error) and
not with a 400. -/
theorem verify_undecodable_image_gives_500 :
    verify (sampleEnv sampleGallery) undecodableRequest =
        ⟨errorResponse "Unsupported image type", [.loadImage []]⟩ ∧
      (verify (sampleEnv sampleGallery) undecodableRequest).response.status = 500 ∧
      resultKind (verify (sampleEnv sampleGallery) undecodableRequest).response =
        ResultKind.InternalError := by
  have hrun := verify_of_load_error (sampleEnv sampleGallery) undecodableRequest []
    "Unsupported image type" rfl (by decide) rfl
  rw [hrun]
  exact ⟨rfl, rfl, resultKind_errorResponse _⟩

/-- C12: for a run that reaches the scan, an entry without photo, or whose photo
fails to load, or in whose photo detection throws or finds no face, gives no
candidate and leaves the best candidate unchanged; the scan ends in the state
that the usable entries alone produce; the photo of every entry of the snapshot
is loaded; and the response is not the 500 of an internal error. -/
theorem verify_entry_failures_are_skipped (env : Env) (req : Request) (q : Descriptor)
    (users : List User) (h : ReachesMatching env req q users) :
    (∀ u, (u.photo = none ∨ (∃ p e, u.photo = some p ∧ env.loadImage p = .error e) ∨
          (∃ p img e, u.photo = some p ∧ env.loadImage p = .ok img ∧
            env.detectSingleFace img = .error e) ∨
          (∃ p img, u.photo = some p ∧ env.loadImage p = .ok img ∧
            env.detectSingleFace img = .ok none)) →
        (processUser env q u).1 = none ∧ ∀ best, scanStep env q best u = best) ∧
      (∀ calls, (batchLoop env q users batchSize batchSize_pos 0 ⟨none, .infinity⟩ calls).1 =
        (users.filter (fun u => (usableDistance env q u).isSome)).foldl (scanStep env q)
          ⟨none, .infinity⟩) ∧
      (∀ u ∈ users, ∀ p, u.photo = some p → Call.loadImage p ∈ (verify env req).calls) ∧
      (verify env req).response.status ≠ 500 ∧
      resultKind (verify env req).response ≠ ResultKind.InternalError := by
  refine ⟨?_, ?_, ?_, ?_, ?_⟩
  · intro u hu
    have hnone : (processUser env q u).1 = none := by
      rcases hu with hp | ⟨p, e, hp, hl⟩ | ⟨p, img, e, hp, hl, hd⟩ | ⟨p, img, hp, hl, hd⟩
      · exact processUser_of_no_photo env q u hp
      · exact processUser_of_load_error env q u p e hp hl
      · exact processUser_of_detect_error env q u p img e hp hl hd
      · exact processUser_of_no_face env q u p img hp hl hd
    exact ⟨hnone, fun best => scanStep_none best (usableDistance_of_processUser_none hnone)⟩
  · intro calls
    rw [batchLoop_best, foldl_scanStep_filter]
  · intro u hu p hp
    obtain ⟨pre, hcalls⟩ := verify_calls env req q users h
    rw [hcalls]
    refine List.mem_append_right _ (List.mem_flatten.2 ⟨_, ?_, processUser_loads_photo env q u p hp⟩)
    exact List.mem_map.2 ⟨u, hu, rfl⟩
  · rcases verify_status_of_reaches env req q users h with hs | hs <;> rw [hs] <;> decide
  · rcases verify_status_of_reaches env req q users h with hs | hs <;>
      simp [resultKind, hs]

/-- C13: when the request passes the input checks, a face is detected and
`User.find` is rejected with message `e`, the handler answers with the 500 of
its `catch`, which is an internal error and not a match, and no gallery entry
is processed. -/
theorem verify_gallery_fetch_failure (env : Env) (req : Request) (buffer : Bytes) (img : Image)
    (q : Descriptor) (e : String) (hfile : req.file = some ⟨some buffer⟩)
    (hsize : buffer.length ≤ 10 * 1024 * 1024) (himg : env.loadImage buffer = .ok img)
    (hdet : env.detectSingleFace img = .ok (some q)) (hfind : env.userFind = .error e) :
    (verify env req).response = errorResponse e ∧ (verify env req).response.status = 500 ∧
      resultKind (verify env req).response = ResultKind.InternalError ∧
      (verify env req).response.status ≠ 200 ∧
      (verify env req).calls = [.loadImage buffer, .detectSingleFace img, .userFind] := by
  rw [verify_of_find_error env req buffer img q e hfile hsize himg hdet hfind]
  exact ⟨rfl, rfl, resultKind_errorResponse e, by simp [errorResponse], rfl⟩

theorem verify_beyond_threshold (env : Env) (req : Request) (q : Descriptor)
    (users : List User) (t : ℚ) (b : Nat) (hb : 0 < b) (h : ReachesMatching env req q users)
    (hno : ∀ u ∈ users, ∀ e, usableDistance env q u = some e → t < e) :
    (verifyWith b hb t env req).response = noUsersResponse ∨
      (verifyWith b hb t env req).response = noMatchResponse := by
  rw [verifyWith_response b hb t env req q users h]
  split
  · exact Or.inl rfl
  · right
    rcases scan_cases env q users with ⟨hfold, _⟩ | ⟨l₁, w, l₂, d, rfl, hw, _, _, hfold⟩
    · rw [hfold, decideMatch_none]
    · rw [hfold, decideMatch_some, if_pos (hno w (by simp) d hw)]

/-- C14: the status of each outcome of `/verify`: a missing file or buffer and an
oversized image give 400 (input error), no detected face gives 400 (no face
detected), an empty gallery or a gallery without an entry within the threshold
gives 404 (no gallery match), an exception of detection or a rejected
`User.find`, and any response sent by the `catch`, give 500 (internal error);
no other status than 200, 400, 404 and 500 is ever sent. -/
theorem verify_status_mapping (env : Env) (req : Request) :
    ((req.file = none ∨ req.file = some ⟨none⟩) →
        (verify env req).response.status = 400 ∧
          resultKind (verify env req).response = ResultKind.InputError) ∧
      (∀ buffer, req.file = some ⟨some buffer⟩ → 10 * 1024 * 1024 < buffer.length →
        (verify env req).response.status = 400 ∧
          resultKind (verify env req).response = ResultKind.InputError) ∧
      (∀ buffer img, req.file = some ⟨some buffer⟩ → buffer.length ≤ 10 * 1024 * 1024 →
        env.loadImage buffer = .ok img → env.detectSingleFace img = .ok none →
        (verify env req).response.status = 400 ∧
          resultKind (verify env req).response = ResultKind.NoFaceDetected) ∧
      (∀ q users, ReachesMatching env req q users →
        (∀ u ∈ users, ∀ e, usableDistance env q u = some e → 6 / 10 < e) →
        (verify env req).response.status = 404 ∧
          resultKind (verify env req).response = ResultKind.NoGalleryMatch) ∧
      (∀ buffer img e, req.file = some ⟨some buffer⟩ → buffer.length ≤ 10 * 1024 * 1024 →
        env.loadImage buffer = .ok img → env.detectSingleFace img = .error e →
        (verify env req).response.status = 500 ∧
          resultKind (verify env req).response = ResultKind.InternalError) ∧
      (∀ buffer img q e, req.file = some ⟨some buffer⟩ → buffer.length ≤ 10 * 1024 * 1024 →
        env.loadImage buffer = .ok img → env.detectSingleFace img = .ok (some q) →
        env.userFind = .error e →
        (verify env req).response.status = 500 ∧
          resultKind (verify env req).response = ResultKind.InternalError) ∧
      (∀ e, (verify env req).response = errorResponse e →
        (verify env req).response.status = 500 ∧
          resultKind (verify env req).response = ResultKind.InternalError) ∧
      ((verify env req).response.status = 200 ∨ (verify env req).response.status = 400 ∨
        (verify env req).response.status = 404 ∨ (verify env req).response.status = 500) := by
  refine ⟨?_, ?_, ?_, ?_, ?_, ?_, ?_, ?_⟩
  · rintro (hf | hf)
    · rw [verify_of_no_file env req hf]
      simp [noPhotoResponse, resultKind, noFaceResponse]
    · rw [verify_of_no_buffer env req hf]
      simp [noPhotoResponse, resultKind, noFaceResponse]
  · intro buffer hf hsize
    rw [verify_of_oversize env req buffer hf hsize]
    simp [fileTooLargeResponse, resultKind, noFaceResponse]
  · intro buffer img hf hsize himg hdet
    rw [verify_of_no_face env req buffer img hf hsize himg hdet]
    simp [noFaceResponse, resultKind]
  · intro q users h hno
    have hno' : ∀ u ∈ users, ∀ e, usableDistance env q u = some e → MATCH_THRESHOLD < e := by
      simpa [MATCH_THRESHOLD] using hno
    rcases verify_beyond_threshold env req q users MATCH_THRESHOLD batchSize batchSize_pos h hno'
      with hk | hk <;>
      · have hk' : (verify env req).response = _ := hk
        rw [hk']
        simp [noUsersResponse, noMatchResponse, resultKind]
  · intro buffer img e hf hsize himg hdet
    rw [verify_of_detect_error env req buffer img e hf hsize himg hdet]
    exact ⟨rfl, resultKind_errorResponse e⟩
  · intro buffer img q e hf hsize himg hdet hfind
    rw [verify_of_find_error env req buffer img q e hf hsize himg hdet hfind]
    exact ⟨rfl, resultKind_errorResponse e⟩
  · intro e he
    rw [he]
    exact ⟨rfl, resultKind_errorResponse e⟩
  · rcases verify_response_cases env req with h | h | h | h | h | ⟨e, h⟩ | ⟨w, m, h⟩ <;>
      rw [h] <;>
      simp [noPhotoResponse, fileTooLargeResponse, noFaceResponse, noUsersResponse,
        noMatchResponse, errorResponse, matchResponse]

/-- Counterexample to C15 as stated: when `User.find` is rejected the handler
answers with the 500 of its `catch`, which is none of the four result kinds
Identified, NoFaceDetected, NoGalleryMatch, InputError. -/
theorem verify_five_kinds_refutes_four :
    (verify offlineEnv sampleRequest).response = errorResponse "connection refused" ∧
      (verify offlineEnv sampleRequest).response.status = 500 ∧
      resultKind (verify offlineEnv sampleRequest).response ≠ ResultKind.Identified ∧
      resultKind (verify offlineEnv sampleRequest).response ≠ ResultKind.NoFaceDetected ∧
      resultKind (verify offlineEnv sampleRequest).response ≠ ResultKind.NoGalleryMatch ∧
      resultKind (verify offlineEnv sampleRequest).response ≠ ResultKind.InputError := by
  have hrun := verify_of_find_error offlineEnv sampleRequest [0] ⟨1, 1, [0]⟩ [0]
    "connection refused" rfl (by decide) rfl (by simp [offlineEnv, sampleEnv]) rfl
  rw [hrun]
  refine ⟨rfl, rfl, ?_, ?_, ?_, ?_⟩ <;>
    · show resultKind (errorResponse "connection refused") ≠ _
      rw [resultKind_errorResponse]
      decide

/-- C15 (amended): every call of the handler sends one response, which is of
exactly one of five kinds: a match (Identified), the no-face response
(NoFaceDetected), one of the two 404 responses (NoGalleryMatch), one of the two
400 responses for a missing or oversized file (InputError), or the response of
the `catch` with status 500 (InternalError). -/
theorem verify_resolves_to_one_kind (env : Env) (req : Request) :
    ((∃ w m, (verify env req).response = matchResponse w m) ∧
        resultKind (verify env req).response = ResultKind.Identified) ∨
      ((verify env req).response = noFaceResponse ∧
        resultKind (verify env req).response = ResultKind.NoFaceDetected) ∨
      (((verify env req).response = noUsersResponse ∨
          (verify env req).response = noMatchResponse) ∧
        resultKind (verify env req).response = ResultKind.NoGalleryMatch) ∨
      (((verify env req).response = noPhotoResponse ∨
          (verify env req).response = fileTooLargeResponse) ∧
        resultKind (verify env req).response = ResultKind.InputError) ∨
      ((∃ e, (verify env req).response = errorResponse e) ∧
        (verify env req).response.status = 500 ∧
        resultKind (verify env req).response = ResultKind.InternalError) := by
  rcases verify_response_cases env req with h | h | h | h | h | ⟨e, h⟩ | ⟨w, m, h⟩
  · exact Or.inr (Or.inr (Or.inr (Or.inl ⟨Or.inl h, by
      rw [h]; simp [noPhotoResponse, resultKind, noFaceResponse]⟩)))
  · exact Or.inr (Or.inr (Or.inr (Or.inl ⟨Or.inr h, by
      rw [h]; simp [fileTooLargeResponse, resultKind, noFaceResponse]⟩)))
  · exact Or.inr (Or.inl ⟨h, by rw [h]; simp [noFaceResponse, resultKind]⟩)
  · exact Or.inr (Or.inr (Or.inl ⟨Or.inl h, by rw [h]; simp [noUsersResponse, resultKind]⟩))
  · exact Or.inr (Or.inr (Or.inl ⟨Or.inr h, by rw [h]; simp [noMatchResponse, resultKind]⟩))
  · exact Or.inr (Or.inr (Or.inr (Or.inr ⟨⟨e, h⟩, by rw [h]; rfl, by
      rw [h]; exact resultKind_errorResponse e⟩)))
  · exact Or.inl ⟨⟨w, m, h⟩, by rw [h]; simp [matchResponse, resultKind]⟩

/-! ## Confidence values -/

theorem toFixedInteger_of_hundredths (x : ℚ) (n : ℕ) (h : x * 100 = n) :
    toFixedInteger x = n := by
  unfold toFixedInteger
  have hfloor : ⌊x * 100 + 1 / 2⌋ = (n : ℤ) := by
    rw [Int.floor_eq_iff, h]
    constructor <;> push_cast <;> linarith
  rw [hfloor]
  rfl

theorem toFixedInteger_mono {x y : ℚ} (h : x ≤ y) : toFixedInteger x ≤ toFixedInteger y := by
  unfold toFixedInteger
  exact Int.toNat_le_toNat (Int.floor_mono (by linarith))

theorem toFixed2_of_hundredths (x : ℚ) (n : ℕ) (h : x * 100 = n) :
    toFixed2 x = toString (n / 100) ++ "." ++ twoDigits (n % 100) := by
  have hx : ¬ x < 0 := by
    intro hneg
    have : (0 : ℚ) ≤ (n : ℚ) := Nat.cast_nonneg n
    linarith
  unfold toFixed2
  simp only [if_neg hx, toFixedInteger_of_hundredths x n h]
  rfl

theorem confidence_at_zero : confidence (.finite 0) = "100.00" := by
  show toFixed2 (confidenceValue 0) = "100.00"
  rw [toFixed2_of_hundredths _ 10000 (by norm_num [confidenceValue])]
  decide

theorem confidence_at_threshold : confidence (.finite (6 / 10)) = "40.00" := by
  show toFixed2 (confidenceValue (6 / 10)) = "40.00"
  rw [toFixed2_of_hundredths _ 4000 (by norm_num [confidenceValue])]
  decide

theorem confidence_at_045 : confidence (.finite (45 / 100)) = "55.00" := by
  show toFixed2 (confidenceValue (45 / 100)) = "55.00"
  rw [toFixed2_of_hundredths _ 5500 (by norm_num [confidenceValue])]
  decide

theorem example_fold (env : Env) (q : Descriptor) (a b c : User)
    (ha : usableDistance env q a = some (8 / 10)) (hb : usableDistance env q b = some (45 / 100))
    (hc : usableDistance env q c = some (61 / 100)) :
    [a, b, c].foldl (scanStep env q) ⟨none, .infinity⟩ = ⟨some b, .finite (45 / 100)⟩ := by
  refine foldl_scanStep_first_min env q [a] [c] b (45 / 100) hb ?_ ?_
  · intro u hu e he
    rw [List.mem_singleton] at hu
    subst hu
    rw [ha] at he
    cases he
    norm_num
  · intro u hu e he
    rw [List.mem_singleton] at hu
    subst hu
    rw [hc] at he
    cases he
    norm_num

/-- C16: for a run that reaches the scan of the snapshot `[a, b, c]` with
distances 0.8, 0.45 and 0.61, the handler (threshold 0.6) answers with the match
response of `b`, status 200, and the reported confidence is `55.00%`. -/
theorem verify_example_identifies_second (env : Env) (req : Request) (q : Descriptor)
    (a b c : User) (h : ReachesMatching env req q [a, b, c])
    (ha : usableDistance env q a = some (8 / 10)) (hb : usableDistance env q b = some (45 / 100))
    (hc : usableDistance env q c = some (61 / 100)) :
    (verify env req).response = matchResponse b (.finite (45 / 100)) ∧
      (verify env req).response.status = 200 ∧
      resultKind (verify env req).response = ResultKind.Identified ∧
      (verify env req).response.body.lookup "confidence" = some (.str "55.00%") := by
  have hfold := example_fold env q a b c ha hb hc
  have hresp : (verify env req).response = matchResponse b (.finite (45 / 100)) := by
    rw [verify_response env req q _ h, if_neg (by simp), hfold, decideMatch_some,
      if_neg (by norm_num [MATCH_THRESHOLD])]
  rw [hresp, matchResponse_confidence, confidence_at_045]
  exact ⟨rfl, rfl, by simp [resultKind, matchResponse], rfl⟩

/-- C18: for a run that reaches the scan of a snapshot `l₁ ++ w :: l₂` in which
`w` has distance 0 and every other usable entry has a distance above the
threshold 0.6, wherever `w` sits, the handler answers with the match response of
`w`, status 200, and the reported confidence is `100.00%`. -/
theorem verify_exact_match (env : Env) (req : Request) (q : Descriptor) (l₁ l₂ : List User)
    (w : User) (h : ReachesMatching env req q (l₁ ++ w :: l₂))
    (hw : usableDistance env q w = some 0)
    (hothers : ∀ u ∈ l₁ ++ l₂, ∀ e, usableDistance env q u = some e → 6 / 10 < e) :
    (verify env req).response = matchResponse w (.finite 0) ∧
      (verify env req).response.status = 200 ∧
      resultKind (verify env req).response = ResultKind.Identified ∧
      (verify env req).response.body.lookup "confidence" = some (.str "100.00%") := by
  have hfold : (l₁ ++ w :: l₂).foldl (scanStep env q) ⟨none, .infinity⟩ =
      ⟨some w, .finite 0⟩ := by
    refine foldl_scanStep_first_min env q l₁ l₂ w 0 hw ?_ ?_
    · intro u hu e he
      have := hothers u (List.mem_append_left _ hu) e he
      linarith
    · intro u hu e he
      have := hothers u (List.mem_append_right _ hu) e he
      linarith
  have hresp : (verify env req).response = matchResponse w (.finite 0) := by
    rw [verify_response env req q _ h, if_neg (by simp), hfold, decideMatch_some,
      if_neg (by norm_num [MATCH_THRESHOLD])]
  rw [hresp, matchResponse_confidence, confidence_at_zero]
  exact ⟨rfl, rfl, by simp [resultKind, matchResponse], rfl⟩

/-- C19: the confidence `(1 - d) * 100` is non-increasing in the distance `d`,
and so is its two-decimal rendering; it is 100 at distance 0 and 40 at the
threshold 0.6, rendered `100.00` and `40.00`. -/
theorem confidence_non_increasing :
    (∀ d₁ d₂ : ℚ, d₁ ≤ d₂ → confidenceValue d₂ ≤ confidenceValue d₁) ∧
      (∀ d₁ d₂ : ℚ, d₁ ≤ d₂ → d₂ ≤ 1 →
        toFixedInteger (confidenceValue d₂) ≤ toFixedInteger (confidenceValue d₁)) ∧
      confidenceValue 0 = 100 ∧ confidenceValue (6 / 10) = 40 ∧
      confidence (.finite 0) = "100.00" ∧ confidence (.finite (6 / 10)) = "40.00" := by
  have hmono : ∀ d₁ d₂ : ℚ, d₁ ≤ d₂ → confidenceValue d₂ ≤ confidenceValue d₁ := by
    intro d₁ d₂ hd
    unfold confidenceValue
    linarith
  refine ⟨hmono, fun d₁ d₂ hd _ => toFixedInteger_mono (hmono d₁ d₂ hd), ?_, ?_,
    confidence_at_zero, confidence_at_threshold⟩
  · norm_num [confidenceValue]
  · norm_num [confidenceValue]

theorem verify_response_withSnapshot (env : Env) (req : Request) (q : Descriptor)
    (users : List User) (h : ReachesMatching (withSnapshot env users) req q users) :
    (verify (withSnapshot env users) req).response =
      if users.length = 0 then noUsersResponse
      else decideMatch MATCH_THRESHOLD (users.foldl (scanStep env q) ⟨none, .infinity⟩) := by
  rw [verify_response _ req q users h, scanStep_withSnapshot]

/-- C20: for a run that reaches the scan, replacing the snapshot by any
permutation of it leaves the status and the reported confidence unchanged, and
leaves the whole response (the identity included) unchanged when no two
different entries attain the minimum distance. -/
theorem verify_order_independent (env : Env) (req : Request) (q : Descriptor)
    (users users' : List User) (h : ReachesMatching (withSnapshot env users) req q users)
    (hp : users.Perm users') :
    (verify (withSnapshot env users') req).response.status =
        (verify (withSnapshot env users) req).response.status ∧
      (verify (withSnapshot env users') req).response.body.lookup "confidence" =
        (verify (withSnapshot env users) req).response.body.lookup "confidence" ∧
      ((∀ u ∈ users, ∀ v ∈ users, ∀ d, usableDistance env q u = some d →
          usableDistance env q v = some d →
          (∀ x ∈ users, ∀ e, usableDistance env q x = some e → d ≤ e) → u = v) →
        (verify (withSnapshot env users') req).response =
          (verify (withSnapshot env users) req).response) := by
  rw [verify_response_withSnapshot env req q users h,
    verify_response_withSnapshot env req q users' (reaches_withSnapshot h users'),
    ← hp.length_eq]
  by_cases hlen : users.length = 0
  · rw [if_pos hlen, if_pos hlen]
    exact ⟨rfl, rfl, fun _ => rfl⟩
  · rw [if_neg hlen, if_neg hlen]
    rcases scan_cases env q users with ⟨hfold, hnone⟩ | ⟨l₁, w, l₂, d, hsplit, hw, h₁, h₂, hfold⟩
    · have hnone' : ∀ u ∈ users', usableDistance env q u = none :=
        fun u hu => hnone u (hp.mem_iff.2 hu)
      rw [hfold, foldl_scanStep_unusable env q users' _ hnone']
      exact ⟨rfl, rfl, fun _ => rfl⟩
    · rcases scan_cases env q users' with
        ⟨_, hnone'⟩ | ⟨l₁', w', l₂', d', hsplit', hw', h₁', h₂', hfold'⟩
      · have hwmem : w ∈ users := by rw [hsplit]; simp
        rw [hnone' w (hp.mem_iff.1 hwmem)] at hw
        cases hw
      · have hmin : ∀ x ∈ users, ∀ e, usableDistance env q x = some e → d ≤ e := by
          rw [hsplit]
          exact first_min_le env q l₁ l₂ w d hw h₁ h₂
        have hmin' : ∀ x ∈ users', ∀ e, usableDistance env q x = some e → d' ≤ e := by
          rw [hsplit']
          exact first_min_le env q l₁' l₂' w' d' hw' h₁' h₂'
        have hwmem : w ∈ users := by rw [hsplit]; simp
        have hwmem' : w' ∈ users' := by rw [hsplit']; simp
        have hdd : d' = d :=
          le_antisymm (hmin' w (hp.mem_iff.1 hwmem) d hw) (hmin w' (hp.mem_iff.2 hwmem') d' hw')
        subst hdd
        rw [hfold, hfold', decideMatch_some, decideMatch_some]
        by_cases hlt : MATCH_THRESHOLD < d'
        · rw [if_pos hlt, if_pos hlt]
          exact ⟨rfl, rfl, fun _ => rfl⟩
        · rw [if_neg hlt, if_neg hlt]
          refine ⟨rfl, ?_, fun huniq => ?_⟩
          · rw [matchResponse_confidence, matchResponse_confidence]
          · rw [huniq w hwmem w' (hp.mem_iff.2 hwmem') d' hw hw' hmin]

/-! ## Further properties on the sample galleries -/

theorem verify_entry_failures_are_skipped_witness :
    (verify (sampleEnv damagedGallery) sampleRequest).response.status ≠ 500 ∧
      Call.loadImage [45] ∈ (verify (sampleEnv damagedGallery) sampleRequest).calls ∧
      (processUser (sampleEnv damagedGallery) [0] (sampleUser "Y" (some []))).1 = none :=
  have h := verify_entry_failures_are_skipped (sampleEnv damagedGallery) sampleRequest [0]
    damagedGallery (reaches_sample damagedGallery)
  ⟨h.2.2.2.1, h.2.2.1 (sampleUser "B" (some [45])) (by simp [damagedGallery]) [45] rfl,
    (h.1 (sampleUser "Y" (some []))
      (Or.inr (Or.inl ⟨[], "Unsupported image type", rfl, rfl⟩))).1⟩

theorem verify_gallery_fetch_failure_witness :
    (verify offlineEnv sampleRequest).response = errorResponse "connection refused" ∧
      (verify offlineEnv sampleRequest).response.status = 500 ∧
      resultKind (verify offlineEnv sampleRequest).response = ResultKind.InternalError ∧
      (verify offlineEnv sampleRequest).response.status ≠ 200 ∧
      (verify offlineEnv sampleRequest).calls =
        [.loadImage [0], .detectSingleFace ⟨1, 1, [0]⟩, .userFind] :=
  verify_gallery_fetch_failure offlineEnv sampleRequest [0] ⟨1, 1, [0]⟩ [0]
    "connection refused" rfl (by decide) rfl (by simp [offlineEnv, sampleEnv]) rfl

theorem verify_example_identifies_second_witness :
    (verify (sampleEnv sampleGallery) sampleRequest).response =
        matchResponse (sampleUser "B" (some [45])) (.finite (45 / 100)) ∧
      (verify (sampleEnv sampleGallery) sampleRequest).response.status = 200 ∧
      resultKind (verify (sampleEnv sampleGallery) sampleRequest).response =
        ResultKind.Identified ∧
      (verify (sampleEnv sampleGallery) sampleRequest).response.body.lookup "confidence" =
        some (.str "55.00%") :=
  verify_example_identifies_second (sampleEnv sampleGallery) sampleRequest [0]
    (sampleUser "A" (some [80])) (sampleUser "B" (some [45])) (sampleUser "C" (some [61]))
    (reaches_sample sampleGallery)
    (by rw [usableDistance_sample]; norm_num)
    (by simpa using usableDistance_sample sampleGallery "B" 45)
    (by simpa using usableDistance_sample sampleGallery "C" 61)

theorem verify_exact_match_witness :
    (verify (sampleEnv exactGallery) sampleRequest).response =
        matchResponse (sampleUser "Q" (some [0])) (.finite 0) ∧
      (verify (sampleEnv exactGallery) sampleRequest).response.status = 200 ∧
      resultKind (verify (sampleEnv exactGallery) sampleRequest).response =
        ResultKind.Identified ∧
      (verify (sampleEnv exactGallery) sampleRequest).response.body.lookup "confidence" =
        some (.str "100.00%") :=
  verify_exact_match (sampleEnv exactGallery) sampleRequest [0] [sampleUser "A" (some [80])]
    [sampleUser "C" (some [61])] (sampleUser "Q" (some [0])) (reaches_sample exactGallery)
    (by simpa using usableDistance_sample exactGallery "Q" 0)
    (by
      intro u hu e he
      simp only [List.singleton_append, List.mem_cons, List.mem_singleton, List.not_mem_nil,
        or_false] at hu
      rcases hu with rfl | rfl <;> rw [usableDistance_sample] at he <;> cases he <;> norm_num)

theorem verify_order_independent_witness :
    sampleGallery.Perm sampleGallery.reverse ∧
      (verify (withSnapshot (sampleEnv []) sampleGallery.reverse) sampleRequest).response.status =
        (verify (withSnapshot (sampleEnv []) sampleGallery) sampleRequest).response.status ∧
      (verify (withSnapshot (sampleEnv []) sampleGallery.reverse)
          sampleRequest).response.body.lookup "confidence" =
        (verify (withSnapshot (sampleEnv []) sampleGallery)
          sampleRequest).response.body.lookup "confidence" ∧
      (verify (withSnapshot (sampleEnv []) sampleGallery.reverse) sampleRequest).response =
        (verify (withSnapshot (sampleEnv []) sampleGallery) sampleRequest).response :=
  have h := verify_order_independent (sampleEnv []) sampleRequest [0] sampleGallery
    sampleGallery.reverse (reaches_sample sampleGallery) (List.reverse_perm sampleGallery).symm
  ⟨(List.reverse_perm sampleGallery).symm, h.1, h.2.1, h.2.2 (by
    intro u hu v hv d hdu hdv _
    simp only [sampleGallery, List.mem_cons, List.mem_singleton, List.not_mem_nil,
      or_false] at hu hv
    rcases hu with rfl | rfl | rfl <;> rcases hv with rfl | rfl | rfl <;>
      first
        | rfl
        | (rw [usableDistance_sample] at hdu hdv
           rw [← hdu] at hdv
           norm_num at hdv))⟩

/-! ## Authentication and authorization -/

theorem tokenOf_empty : tokenOf "" = none := by decide

theorem authenticateJWT_of_token (jwtVerify : String → Except String TokenPayload)
    (authHeader token : String) (htok : tokenOf authHeader = some token) (hne : token ≠ "") :
    authenticateJWT jwtVerify (some authHeader) =
      match jwtVerify token with
      | .ok decoded => .next decoded
      | .error _ => .responded tokenInvalidResponse := by
  have hh : authHeader ≠ "" := by
    rintro rfl
    rw [tokenOf_empty] at htok
    cases htok
  simp only [authenticateJWT, if_neg hh, htok, if_neg hne]

theorem authenticateJWT_of_no_token (jwtVerify : String → Except String TokenPayload)
    (authorization : Option String)
    (h : authorization = none ∨
      ∃ authHeader, authorization = some authHeader ∧
        (tokenOf authHeader = none ∨ tokenOf authHeader = some "")) :
    authenticateJWT jwtVerify authorization = .responded tokenMissingResponse ∨
      authenticateJWT jwtVerify authorization = .responded tokenMalformedResponse := by
  rcases h with rfl | ⟨authHeader, rfl, htok⟩
  · exact Or.inl rfl
  · unfold authenticateJWT
    simp only
    split
    · exact Or.inl rfl
    · rcases htok with htok | htok <;> simp [htok]

/-- C30: `authenticateJWT` calls `next` exactly when the header is present, its
second space-separated part exists and is not empty, and `jwt.verify` accepts
that token, and then `req.user` is the decoded payload; when the header is
missing or has no token part it answers 401, and when `jwt.verify` throws it
answers 403, in both cases without calling `next`. -/
theorem authenticateJWT_next_iff (jwtVerify : String → Except String TokenPayload)
    (authorization : Option String) :
    (∀ user, authenticateJWT jwtVerify authorization = .next user ↔
        ∃ authHeader token, authorization = some authHeader ∧
          tokenOf authHeader = some token ∧ token ≠ "" ∧ jwtVerify token = .ok user) ∧
      ((authorization = none ∨
          ∃ authHeader, authorization = some authHeader ∧
            (tokenOf authHeader = none ∨ tokenOf authHeader = some "")) →
        ∃ r, authenticateJWT jwtVerify authorization = .responded r ∧ r.status = 401) ∧
      (∀ authHeader token e, authorization = some authHeader →
        tokenOf authHeader = some token → token ≠ "" → jwtVerify token = .error e →
        authenticateJWT jwtVerify authorization = .responded tokenInvalidResponse ∧
          tokenInvalidResponse.status = 403) := by
  refine ⟨fun user => ⟨fun hnext => ?_, ?_⟩, fun h => ?_, ?_⟩
  · rcases authorization with _ | authHeader
    · simp [authenticateJWT] at hnext
    · rcases htok : tokenOf authHeader with _ | token
      · rcases authenticateJWT_of_no_token jwtVerify (some authHeader)
          (Or.inr ⟨authHeader, rfl, Or.inl htok⟩) with h | h <;> rw [h] at hnext <;> cases hnext
      · by_cases hne : token = ""
        · subst hne
          rcases authenticateJWT_of_no_token jwtVerify (some authHeader)
            (Or.inr ⟨authHeader, rfl, Or.inr htok⟩) with h | h <;> rw [h] at hnext <;>
            cases hnext
        · rw [authenticateJWT_of_token jwtVerify authHeader token htok hne] at hnext
          rcases hv : jwtVerify token with e | decoded
          · rw [hv] at hnext; cases hnext
          · rw [hv] at hnext
            cases hnext
            exact ⟨authHeader, token, rfl, htok, hne, hv⟩
  · rintro ⟨authHeader, token, rfl, htok, hne, hv⟩
    rw [authenticateJWT_of_token jwtVerify authHeader token htok hne, hv]
  · rcases authenticateJWT_of_no_token jwtVerify authorization h with hr | hr
    · exact ⟨_, hr, rfl⟩
    · exact ⟨_, hr, rfl⟩
  · rintro authHeader token e rfl htok hne hv
    rw [authenticateJWT_of_token jwtVerify authHeader token htok hne, hv]
    exact ⟨rfl, rfl⟩

/-- C21: when the token is accepted and the role of its payload is not
`professional`, the route `/verify` answers 403 "Access denied: incorrect role"
and makes no external call: no image is decoded, the gallery is not fetched and
nothing is matched. -/
theorem verifyRoute_requires_professional (jwtVerify : String → Except String TokenPayload)
    (env : Env) (req : RouteRequest) (user : TokenPayload)
    (hauth : authenticateJWT jwtVerify req.authorization = .next user)
    (hrole : user.role ≠ some "professional") :
    (verifyRoute jwtVerify env req).response = accessDeniedResponse ∧
      (verifyRoute jwtVerify env req).response.status = 403 ∧
      (verifyRoute jwtVerify env req).calls = [] := by
  have hrun : verifyRoute jwtVerify env req = ⟨accessDeniedResponse, []⟩ := by
    simp only [verifyRoute, hauth, authorize, if_pos hrole]
  rw [hrun]
  exact ⟨rfl, rfl, rfl⟩

theorem verifyRoute_requires_professional_witness :
    authenticateJWT sampleJwtVerify (some "Bearer user") = .next ⟨"u1", some "user"⟩ ∧
      (verifyRoute sampleJwtVerify (sampleEnv sampleGallery)
        ⟨some "Bearer user", some ⟨some [0]⟩⟩).response = accessDeniedResponse ∧
      (verifyRoute sampleJwtVerify (sampleEnv sampleGallery)
        ⟨some "Bearer user", some ⟨some [0]⟩⟩).response.status = 403 ∧
      (verifyRoute sampleJwtVerify (sampleEnv sampleGallery)
        ⟨some "Bearer user", some ⟨some [0]⟩⟩).calls = [] :=
  ⟨by decide,
    verifyRoute_requires_professional sampleJwtVerify (sampleEnv sampleGallery)
      ⟨some "Bearer user", some ⟨some [0]⟩⟩ ⟨"u1", some "user"⟩ (by decide) (by decide)⟩

/-! ## Failure responses and the gallery fetch -/

theorem decideMatch_of_failure (t : ℚ) (best : Best) (h : (decideMatch t best).status ≠ 200) :
    decideMatch t best = noMatchResponse := by
  unfold decideMatch at h ⊢
  split
  · rfl
  · split
    · rfl
    · rename_i hm hgt
      simp only [hm, hgt] at h
      exact absurd rfl h

theorem verify_early_independent (env : Env) (req : Request) (users users' : List User)
    (h : ∀ q, ¬ ReachesMatching (withSnapshot env users) req q users) :
    (verify (withSnapshot env users') req).response =
      (verify (withSnapshot env users) req).response := by
  rcases hf : req.file with _ | ⟨_ | buffer⟩
  · rw [verify_of_no_file _ req hf, verify_of_no_file _ req hf]
  · rw [verify_of_no_buffer _ req hf, verify_of_no_buffer _ req hf]
  · by_cases hsize : 10 * 1024 * 1024 < buffer.length
    · rw [verify_of_oversize _ req buffer hf hsize, verify_of_oversize _ req buffer hf hsize]
    · have hle : buffer.length ≤ 10 * 1024 * 1024 := by omega
      rcases himg : env.loadImage buffer with e | img
      · rw [verify_of_load_error (withSnapshot env users) req buffer e hf hle himg,
          verify_of_load_error (withSnapshot env users') req buffer e hf hle himg]
      · rcases hdet : env.detectSingleFace img with e | _ | q
        · rw [verify_of_detect_error (withSnapshot env users) req buffer img e hf hle himg hdet,
            verify_of_detect_error (withSnapshot env users') req buffer img e hf hle himg hdet]
        · rw [verify_of_no_face (withSnapshot env users) req buffer img hf hle himg hdet,
            verify_of_no_face (withSnapshot env users') req buffer img hf hle himg hdet]
        · exact absurd ⟨buffer, img, hf, hle, himg, hdet, rfl⟩ (h q)

/-- C22: a failure response of `/verify` (any status other than 200) is one of
the five fixed responses of lines 582, 595, 617, 636 and 700, or the response of
the `catch` carrying the message of the exception thrown by `canvas.loadImage`
or `faceapi.detectSingleFace` on the uploaded image or by `User.find`; its body
has only the keys `message` and `details`, with text values; and with two
non-empty snapshots in place of one another, whatever their records, two
failure responses are equal. -/
theorem verify_failure_leaks_nothing (env : Env) (req : Request) :
    ((verify env req).response.status ≠ 200 →
      ((verify env req).response = noPhotoResponse ∨
        (verify env req).response = fileTooLargeResponse ∨
        (verify env req).response = noFaceResponse ∨
        (verify env req).response = noUsersResponse ∨
        (verify env req).response = noMatchResponse ∨
        (∃ buffer e, req.file = some ⟨some buffer⟩ ∧ env.loadImage buffer = .error e ∧
          (verify env req).response = errorResponse e) ∨
        (∃ buffer img e, req.file = some ⟨some buffer⟩ ∧ env.loadImage buffer = .ok img ∧
          env.detectSingleFace img = .error e ∧ (verify env req).response = errorResponse e) ∨
        ∃ e, env.userFind = .error e ∧ (verify env req).response = errorResponse e) ∧
      (verify env req).response.body.map Prod.fst = ["message", "details"] ∧
      ∀ kv ∈ (verify env req).response.body, ∃ s, kv.2 = JVal.str s) ∧
    (∀ users users', users ≠ [] → users' ≠ [] →
      (verify (withSnapshot env users) req).response.status ≠ 200 →
      (verify (withSnapshot env users') req).response.status ≠ 200 →
      (verify (withSnapshot env users') req).response =
        (verify (withSnapshot env users) req).response) := by
  constructor
  · intro hfail
    have hshape : (verify env req).response = noPhotoResponse ∨
        (verify env req).response = fileTooLargeResponse ∨
        (verify env req).response = noFaceResponse ∨
        (verify env req).response = noUsersResponse ∨
        (verify env req).response = noMatchResponse ∨
        (∃ buffer e, req.file = some ⟨some buffer⟩ ∧ env.loadImage buffer = .error e ∧
          (verify env req).response = errorResponse e) ∨
        (∃ buffer img e, req.file = some ⟨some buffer⟩ ∧ env.loadImage buffer = .ok img ∧
          env.detectSingleFace img = .error e ∧ (verify env req).response = errorResponse e) ∨
        ∃ e, env.userFind = .error e ∧ (verify env req).response = errorResponse e := by
      rcases hf : req.file with _ | ⟨_ | buffer⟩
      · rw [verify_of_no_file _ req hf]; exact Or.inl rfl
      · rw [verify_of_no_buffer _ req hf]; exact Or.inl rfl
      · by_cases hsize : 10 * 1024 * 1024 < buffer.length
        · rw [verify_of_oversize _ req buffer hf hsize]; exact Or.inr (Or.inl rfl)
        · have hle : buffer.length ≤ 10 * 1024 * 1024 := by omega
          rcases himg : env.loadImage buffer with e | img
          · rw [verify_of_load_error env req buffer e hf hle himg]
            exact Or.inr (Or.inr (Or.inr (Or.inr (Or.inr (Or.inl ⟨buffer, e, rfl, himg, rfl⟩)))))
          · rcases hdet : env.detectSingleFace img with e | _ | q
            · rw [verify_of_detect_error env req buffer img e hf hle himg hdet]
              exact Or.inr (Or.inr (Or.inr (Or.inr (Or.inr (Or.inr
                (Or.inl ⟨buffer, img, e, rfl, himg, hdet, rfl⟩))))))
            · rw [verify_of_no_face env req buffer img hf hle himg hdet]
              exact Or.inr (Or.inr (Or.inl rfl))
            · rcases hfind : env.userFind with e | users
              · rw [verify_of_find_error env req buffer img q e hf hle himg hdet hfind]
                exact Or.inr (Or.inr (Or.inr (Or.inr (Or.inr (Or.inr (Or.inr ⟨e, rfl, rfl⟩))))))
              · have hresp := verify_response env req q users
                  ⟨buffer, img, hf, hle, himg, hdet, hfind⟩
                rw [hresp] at hfail ⊢
                split
                · exact Or.inr (Or.inr (Or.inr (Or.inl rfl)))
                · rename_i hlen
                  rw [if_neg hlen] at hfail
                  exact Or.inr (Or.inr (Or.inr (Or.inr
                    (Or.inl (decideMatch_of_failure _ _ hfail)))))
    refine ⟨hshape, ?_, ?_⟩
    · rcases hshape with h | h | h | h | h | ⟨_, e, _, _, h⟩ | ⟨_, _, e, _, _, _, h⟩ | ⟨e, _, h⟩ <;>
        rw [h] <;> rfl
    · rcases hshape with h | h | h | h | h | ⟨_, e, _, _, h⟩ | ⟨_, _, e, _, _, _, h⟩ | ⟨e, _, h⟩ <;>
        rw [h] <;>
        simp [noPhotoResponse, fileTooLargeResponse, noFaceResponse, noUsersResponse,
          noMatchResponse, errorResponse]
  · intro users users' hne hne' hfail hfail'
    by_cases hreach : ∃ q, ReachesMatching (withSnapshot env users) req q users
    · obtain ⟨q, hr⟩ := hreach
      have hr' := reaches_withSnapshot hr users'
      have h1 := verify_response _ req q users hr
      have h2 := verify_response _ req q users' hr'
      rw [if_neg (by simpa using hne)] at h1
      rw [if_neg (by simpa using hne')] at h2
      rw [h1] at hfail
      rw [h2] at hfail'
      rw [h1, h2, decideMatch_of_failure _ _ hfail, decideMatch_of_failure _ _ hfail']
    · exact verify_early_independent env req users users' (fun q hq => hreach ⟨q, hq⟩)

theorem processUser_never_fetches (env : Env) (q : Descriptor) (u : User) :
    Call.userFind ∉ (processUser env q u).2 := by
  unfold processUser
  split
  · simp
  · split
    · simp
    · split
      · simp
      · simp
      · split <;> simp

theorem scan_never_fetches (env : Env) (q : Descriptor) (users : List User) :
    Call.userFind ∉ (users.map (fun u => (processUser env q u).2)).flatten := by
  intro h
  obtain ⟨l, hl, hmem⟩ := List.mem_flatten.1 h
  obtain ⟨u, _, rfl⟩ := List.mem_map.1 hl
  exact processUser_never_fetches env q u hmem

theorem verify_calls_of_reaches (env : Env) (req : Request) (buffer : Bytes) (img : Image)
    (q : Descriptor) (users : List User) (hfile : req.file = some ⟨some buffer⟩)
    (hsize : buffer.length ≤ 10 * 1024 * 1024) (himg : env.loadImage buffer = .ok img)
    (hdet : env.detectSingleFace img = .ok (some q)) (hfind : env.userFind = .ok users) :
    (verify env req).calls =
      [.loadImage buffer, .detectSingleFace img, .userFind] ++
        (users.map (fun u => (processUser env q u).2)).flatten := by
  unfold verify verifyWith
  simp only [hfile, himg, hdet, hfind]
  rw [if_neg (by omega)]
  split
  · next hlen =>
    have : users = [] := List.length_eq_zero.1 hlen
    subst this
    rfl
  · simp only [matchGallery, batchLoop_snd env q users _ _ _ 0 _ _ rfl, List.drop_zero]

/-- C23: in one run of the handler `User.find` is called at most once; in a run
that reaches the scan the calls are the decoding of the uploaded image, the
detection on it, the one `User.find`, and after it the calls of the gallery
entries, none of which is a `User.find`; the handler has no call that writes. -/
theorem verify_reads_gallery_once (env : Env) (req : Request) :
    (verify env req).calls.count Call.userFind ≤ 1 ∧
      (∀ q users, ReachesMatching env req q users →
        ∃ buffer img, (verify env req).calls =
            [.loadImage buffer, .detectSingleFace img, .userFind] ++
              (users.map (fun u => (processUser env q u).2)).flatten ∧
          Call.userFind ∉ (users.map (fun u => (processUser env q u).2)).flatten ∧
          (verify env req).calls.count Call.userFind = 1) ∧
      (∀ c ∈ (verify env req).calls, c = Call.userFind ∨ (∃ b, c = Call.loadImage b) ∨
        (∃ i, c = Call.detectSingleFace i) ∨ ∃ a b, c = Call.euclideanDistance a b) := by
  have hreach : ∀ q users, ReachesMatching env req q users →
      ∃ buffer img, (verify env req).calls =
          [.loadImage buffer, .detectSingleFace img, .userFind] ++
            (users.map (fun u => (processUser env q u).2)).flatten ∧
        Call.userFind ∉ (users.map (fun u => (processUser env q u).2)).flatten ∧
        (verify env req).calls.count Call.userFind = 1 := by
    rintro q users ⟨buffer, img, hf, hle, himg, hdet, hfind⟩
    have hcalls := verify_calls_of_reaches env req buffer img q users hf hle himg hdet hfind
    refine ⟨buffer, img, hcalls, scan_never_fetches env q users, ?_⟩
    rw [hcalls, List.count_append, List.count_eq_zero.2 (scan_never_fetches env q users)]
    simp
  refine ⟨?_, hreach, ?_⟩
  · rcases hf : req.file with _ | ⟨_ | buffer⟩
    · rw [verify_of_no_file _ req hf]; decide
    · rw [verify_of_no_buffer _ req hf]; decide
    · by_cases hsize : 10 * 1024 * 1024 < buffer.length
      · rw [verify_of_oversize _ req buffer hf hsize]; decide
      · have hle : buffer.length ≤ 10 * 1024 * 1024 := by omega
        rcases himg : env.loadImage buffer with e | img
        · rw [verify_of_load_error env req buffer e hf hle himg]
          simp
        · rcases hdet : env.detectSingleFace img with e | _ | q
          · rw [verify_of_detect_error env req buffer img e hf hle himg hdet]
            simp
          · rw [verify_of_no_face env req buffer img hf hle himg hdet]
            simp
          · rcases hfind : env.userFind with e | users
            · rw [verify_of_find_error env req buffer img q e hf hle himg hdet hfind]
              simp
            · obtain ⟨_, _, _, _, hcount⟩ :=
                hreach q users ⟨buffer, img, hf, hle, himg, hdet, hfind⟩
              exact le_of_eq hcount
  · intro c _
    cases c with
    | loadImage b => exact Or.inr (Or.inl ⟨b, rfl⟩)
    | detectSingleFace i => exact Or.inr (Or.inr (Or.inl ⟨i, rfl⟩))
    | euclideanDistance a b => exact Or.inr (Or.inr (Or.inr ⟨a, b, rfl⟩))
    | userFind => exact Or.inl rfl

/-! ## The partition into batches -/

theorem batches_of_lt (users : List User) (b : Nat) (hb : 0 < b) (i : Nat)
    (h : i < users.length) :
    batches users b hb i = (users.drop i).take b :: batches users b hb (i + b) := by
  rw [batches, if_pos h]

theorem batches_of_ge (users : List User) (b : Nat) (hb : 0 < b) (i : Nat)
    (h : users.length ≤ i) : batches users b hb i = [] := by
  rw [batches, if_neg (by omega)]

theorem batchLoop_eq_foldl_batches (env : Env) (q : Descriptor) (users : List User) (b : Nat)
    (hb : 0 < b) :
    ∀ (n i : Nat) (best : Best) (calls : List Call), users.length - i = n →
      batchLoop env q users b hb i best calls =
        (batches users b hb i).foldl (processBatch env q) (best, calls) := by
  intro n
  induction n using Nat.strong_induction_on with
  | _ n ih =>
    intro i best calls hn
    rw [batchLoop]
    split
    · next h =>
      rw [batches_of_lt users b hb i h, List.foldl_cons]
      simp only []
      rw [ih (users.length - (i + b)) (by omega) (i + b) _ _ rfl]
      simp only [processBatch, List.map_map]
      rfl
    · next h =>
      rw [batches_of_ge users b hb i (by omega)]
      rfl

theorem batches_flatten (users : List User) (b : Nat) (hb : 0 < b) :
    ∀ (n i : Nat), users.length - i = n → (batches users b hb i).flatten = users.drop i := by
  intro n
  induction n using Nat.strong_induction_on with
  | _ n ih =>
    intro i hn
    by_cases h : i < users.length
    · rw [batches_of_lt users b hb i h, List.flatten_cons,
        ih (users.length - (i + b)) (by omega) (i + b) rfl]
      have : users.drop (i + b) = (users.drop i).drop b := by rw [List.drop_drop]
      rw [this, List.take_append_drop]
    · rw [batches_of_ge users b hb i (by omega), List.drop_eq_nil_of_le (by omega)]
      rfl

theorem batches_length_five (users : List User) (hb : 0 < 5) :
    ∀ (n i : Nat), users.length - i = n →
      (batches users 5 hb i).length = (users.length - i + 4) / 5 := by
  intro n
  induction n using Nat.strong_induction_on with
  | _ n ih =>
    intro i hn
    by_cases h : i < users.length
    · rw [batches_of_lt users 5 hb i h, List.length_cons,
        ih (users.length - (i + 5)) (by omega) (i + 5) rfl]
      omega
    · rw [batches_of_ge users 5 hb i (by omega), List.length_nil]
      omega

theorem batches_sizes (users : List User) (b : Nat) (hb : 0 < b) :
    ∀ (n i : Nat), users.length - i = n →
      ∀ batch ∈ batches users b hb i, 1 ≤ batch.length ∧ batch.length ≤ b := by
  intro n
  induction n using Nat.strong_induction_on with
  | _ n ih =>
    intro i hn batch hmem
    by_cases h : i < users.length
    · rw [batches_of_lt users b hb i h] at hmem
      rcases List.mem_cons.1 hmem with rfl | hrest
      · rw [List.length_take, List.length_drop]
        omega
      · exact ih (users.length - (i + b)) (by omega) (i + b) rfl batch hrest
    · rw [batches_of_ge users b hb i (by omega)] at hmem
      cases hmem

theorem batches_full (users : List User) (b : Nat) (hb : 0 < b) :
    ∀ (n i : Nat), users.length - i = n →
      ∀ k batch, (batches users b hb i)[k]? = some batch →
        k + 1 < (batches users b hb i).length → batch.length = b := by
  intro n
  induction n using Nat.strong_induction_on with
  | _ n ih =>
    intro i hn k batch hk hlast
    by_cases h : i < users.length
    · rw [batches_of_lt users b hb i h] at hk hlast
      cases k with
      | zero =>
        simp only [List.getElem?_cons_zero, Option.some.injEq] at hk
        subst hk
        have hnext : i + b < users.length := by
          by_contra hge
          rw [batches_of_ge users b hb (i + b) (by omega)] at hlast
          simp at hlast
        rw [List.length_take, List.length_drop]
        omega
      | succ k =>
        simp only [List.getElem?_cons_succ] at hk
        simp only [List.length_cons] at hlast
        exact ih (users.length - (i + b)) (by omega) (i + b) rfl k batch hk (by omega)
    · rw [batches_of_ge users b hb i (by omega)] at hk
      simp at hk

/-- C24: the loop visits the batches `users.slice(i, i + 5)` for `i = 0, 5, ...`:
there are `ceil(n / 5)` of them, each has between 1 and 5 entries and all but
the last have exactly 5, their concatenation in order is the snapshot, and the
loop, which always terminates, is the fold of the loop body over these
batches. -/
theorem batches_partition_snapshot (env : Env) (q : Descriptor) (users : List User)
    (best : Best) (calls : List Call) :
    (batches users batchSize batchSize_pos 0).length = (users.length + 4) / 5 ∧
      (∀ batch ∈ batches users batchSize batchSize_pos 0,
        1 ≤ batch.length ∧ batch.length ≤ 5) ∧
      (∀ k batch, (batches users batchSize batchSize_pos 0)[k]? = some batch →
        k + 1 < (batches users batchSize batchSize_pos 0).length → batch.length = 5) ∧
      (batches users batchSize batchSize_pos 0).flatten = users ∧
      batchLoop env q users batchSize batchSize_pos 0 best calls =
        (batches users batchSize batchSize_pos 0).foldl (processBatch env q) (best, calls) := by
  refine ⟨?_, ?_, ?_, ?_, ?_⟩
  · exact batches_length_five users batchSize_pos users.length 0 rfl
  · exact batches_sizes users batchSize batchSize_pos users.length 0 rfl
  · exact batches_full users batchSize batchSize_pos users.length 0 rfl
  · simpa using batches_flatten users batchSize batchSize_pos users.length 0 rfl
  · exact batchLoop_eq_foldl_batches env q users batchSize batchSize_pos users.length 0 best
      calls rfl

/-! ## The Euclidean distance, the upload filter and the confidence bounds -/

theorem squaredDifferences_comm (a b : Descriptor) :
    List.zipWith (fun x y => (x - y) ^ 2) a b = List.zipWith (fun x y => (x - y) ^ 2) b a :=
  List.zipWith_comm_of_comm _ (fun x y => by ring) a b

theorem squaredDifferences_sum_nonneg (a b : Descriptor) :
    0 ≤ (List.zipWith (fun x y => (x - y) ^ 2) a b).sum := by
  apply List.sum_nonneg
  intro x hx
  obtain ⟨i, hi, rfl⟩ := List.mem_iff_getElem.1 hx
  rw [List.getElem_zipWith]
  exact sq_nonneg _

/-- C25: the Euclidean distance of two descriptors of equal length does not
depend on their order and is a non-negative number, for every square-root
function that is non-negative on non-negative numbers. -/
theorem euclideanDistance_symmetric_nonneg (sqrt : ℚ → ℚ) (a b : Descriptor)
    (hsqrt : ∀ x, 0 ≤ x → 0 ≤ sqrt x) (hlen : a.length = b.length) :
    euclideanDistance sqrt a b = euclideanDistance sqrt b a ∧
      ∃ d, euclideanDistance sqrt a b = .ok d ∧ 0 ≤ d := by
  unfold euclideanDistance
  rw [if_neg (by simpa using hlen), if_neg (by simpa using hlen.symm),
    squaredDifferences_comm a b]
  exact ⟨rfl, _, rfl, hsqrt _ (squaredDifferences_sum_nonneg b a)⟩

theorem euclideanDistance_symmetric_nonneg_witness :
    ([0] : Descriptor).length = ([3 / 5] : Descriptor).length ∧
      euclideanDistance Rat.sqrt [0] [3 / 5] = euclideanDistance Rat.sqrt [3 / 5] [0] ∧
      ∃ d, euclideanDistance Rat.sqrt [0] [3 / 5] = .ok d ∧ 0 ≤ d :=
  ⟨rfl, euclideanDistance_symmetric_nonneg Rat.sqrt [0] [3 / 5]
    (fun x _ => Rat.sqrt_nonneg x) rfl⟩

/-- C27: `fileFilter` accepts a file exactly when its MIME type is `image/jpeg`,
`image/png` or `application/pdf`, and it rejects every other type with the error
"Invalid file type. Only JPEG, PNG, and PDF files are allowed." -/
theorem fileFilter_accepts_iff (mimetype : String) :
    (fileFilter mimetype = .ok true ↔
        mimetype = "image/jpeg" ∨ mimetype = "image/png" ∨ mimetype = "application/pdf") ∧
      (¬ (mimetype = "image/jpeg" ∨ mimetype = "image/png" ∨ mimetype = "application/pdf") →
        fileFilter mimetype =
          .error "Invalid file type. Only JPEG, PNG, and PDF files are allowed.") := by
  unfold fileFilter
  constructor
  · constructor
    · intro h
      by_contra hno
      rw [if_neg hno] at h
      cases h
    · intro h
      rw [if_pos h]
  · intro hno
    rw [if_neg hno]

/-- C28: when every distance that `faceapi.euclideanDistance` computes is
non-negative, a match has a best distance `d` with `0 ≤ d ≤ 0.6`, the reported
confidence is the rendering of `(1 - d) * 100`, a number between 40 and 100 that
the clamp to [0, 100] leaves unchanged, and the rendered number of hundredths is
between 4000 and 10000. -/
theorem verify_confidence_at_least_40 (env : Env) (req : Request) (q : Descriptor)
    (users : List User) (h : ReachesMatching env req q users)
    (hnonneg : ∀ a b e, env.euclideanDistance a b = .ok e → 0 ≤ e)
    (hs : (verify env req).response.status = 200) :
    ∃ w ∈ users, ∃ d, usableDistance env q w = some d ∧ 0 ≤ d ∧ d ≤ 6 / 10 ∧
      (verify env req).response.body.lookup "confidence" =
        some (.str (toFixed2 (confidenceValue d) ++ "%")) ∧
      40 ≤ confidenceValue d ∧ confidenceValue d ≤ 100 ∧
      clampedConfidence d = confidenceValue d ∧
      4000 ≤ toFixedInteger (confidenceValue d) ∧
      toFixedInteger (confidenceValue d) ≤ 10000 := by
  obtain ⟨w, hw, d, hd, _, hle, hresp⟩ := verify_match_shape env req q users h hs
  obtain ⟨a, b, hab⟩ := usableDistance_computed hd
  have h0 : 0 ≤ d := hnonneg a b d hab
  have h40 : (40 : ℚ) ≤ confidenceValue d := by unfold confidenceValue; linarith
  have h100 : confidenceValue d ≤ 100 := by unfold confidenceValue; linarith
  refine ⟨w, hw, d, hd, h0, hle, ?_, h40, h100, clampedConfidence_eq d h0 (by linarith), ?_,
    toFixedInteger_le _ h100⟩
  · rw [hresp, matchResponse_confidence]
    rfl
  · have h4000 : toFixedInteger 40 = 4000 := toFixedInteger_of_hundredths 40 4000 (by norm_num)
    rw [← h4000]
    exact toFixedInteger_mono h40

theorem verify_confidence_at_least_40_witness :
    ∃ w ∈ sampleGallery, ∃ d, usableDistance (sampleEnv sampleGallery) [0] w = some d ∧
      0 ≤ d ∧ d ≤ 6 / 10 ∧
      (verify (sampleEnv sampleGallery) sampleRequest).response.body.lookup "confidence" =
        some (.str (toFixed2 (confidenceValue d) ++ "%")) ∧
      40 ≤ confidenceValue d ∧ confidenceValue d ≤ 100 ∧
      clampedConfidence d = confidenceValue d ∧
      4000 ≤ toFixedInteger (confidenceValue d) ∧
      toFixedInteger (confidenceValue d) ≤ 10000 :=
  verify_confidence_at_least_40 (sampleEnv sampleGallery) sampleRequest [0] sampleGallery
    (reaches_sample sampleGallery) (sample_distance_nonneg sampleGallery)
    (by rw [sample_response]; rfl)

/-! ## Calls in sequence, and the body of a match -/

theorem collectionAfter_updates_only (api : Env) :
    ∀ (history : List ServerRequest) (collection : List User),
      collectionAfter api collection (history.filter ServerRequest.isUpdate) =
        collectionAfter api collection history := by
  intro history
  induction history with
  | nil => intro collection; rfl
  | cons r rest ih =>
    intro collection
    cases r with
    | verify req =>
      rw [List.filter_cons_of_neg (by simp [ServerRequest.isUpdate])]
      exact ih collection
    | updatePhoto id photo =>
      rw [List.filter_cons_of_pos (by simp [ServerRequest.isUpdate])]
      exact ih _

theorem updatePhoto_sets (photo : Bytes) (id : String) :
    ∀ (collection : List User), (∃ u ∈ collection, u._id = id) →
      ∃ u ∈ collection, u._id = id ∧ setPhoto u photo ∈ updatePhoto collection id photo := by
  intro collection
  induction collection with
  | nil => rintro ⟨u, hu, _⟩; cases hu
  | cons a rest ih =>
    intro hex
    by_cases ha : a._id = id
    · refine ⟨a, List.mem_cons_self a rest, ha, ?_⟩
      simp [updatePhoto, ha]
    · obtain ⟨u, hu, hid⟩ := hex
      rcases List.mem_cons.1 hu with rfl | hrest
      · exact absurd hid ha
      · obtain ⟨v, hv, hvid, hmem⟩ := ih ⟨u, hrest, hid⟩
        refine ⟨v, List.mem_cons_of_mem a hv, hvid, ?_⟩
        simp only [updatePhoto, if_neg ha]
        exact List.mem_cons_of_mem a hmem

/-- C26: a call of `/verify` leaves the collection as it is and keeps nothing
else; its response after any sequence of earlier calls is the one computed from
the request and the snapshot of the collection as the photo updates alone have
left it; and after the photo of an enrolled user is updated, the next snapshot
holds that user with the new photo, which a run that reaches the scan
loads. -/
theorem verify_is_fresh (api : Env) (collection : List User) :
    (∀ req, (serve api collection (.verify req)).1 = collection) ∧
      (∀ history req,
        (serve api (collectionAfter api collection history) (.verify req)).2 =
          (verify (withSnapshot api (findWithPhoto
            (collectionAfter api collection (history.filter ServerRequest.isUpdate)))) req).response) ∧
      (∀ id photo, (∃ u ∈ collection, u._id = id) →
        ∃ u ∈ collection, u._id = id ∧
          setPhoto u photo ∈ findWithPhoto (serve api collection (.updatePhoto id photo)).1 ∧
          ∀ req q, ReachesMatching
              (withSnapshot api (findWithPhoto (serve api collection (.updatePhoto id photo)).1))
              req q (findWithPhoto (serve api collection (.updatePhoto id photo)).1) →
            Call.loadImage photo ∈
              (verify (withSnapshot api
                (findWithPhoto (serve api collection (.updatePhoto id photo)).1)) req).calls) := by
  refine ⟨fun _ => rfl, fun history req => ?_, fun id photo hex => ?_⟩
  · rw [collectionAfter_updates_only]
    rfl
  · obtain ⟨u, hu, hid, hmem⟩ := updatePhoto_sets photo id collection hex
    have hany : collection.any (fun u => decide (u._id = id)) = true := by
      rw [List.any_eq_true]
      exact ⟨u, hu, by simpa using hid⟩
    have hserve : (serve api collection (.updatePhoto id photo)).1 =
        updatePhoto collection id photo := by
      simp only [serve, hany, if_true]
    rw [hserve]
    have hfind : setPhoto u photo ∈ findWithPhoto (updatePhoto collection id photo) := by
      unfold findWithPhoto
      rw [List.mem_filter]
      exact ⟨hmem, rfl⟩
    refine ⟨u, hu, hid, hfind, fun req q hreach => ?_⟩
    obtain ⟨pre, hcalls⟩ := verify_calls _ req q _ hreach
    rw [hcalls]
    refine List.mem_append_right _ (List.mem_flatten.2
      ⟨_, List.mem_map.2 ⟨setPhoto u photo, hfind, rfl⟩, ?_⟩)
    exact processUser_loads_photo _ q (setPhoto u photo) photo rfl

theorem orNone_of_empty (v : StoredString)
    (h : v = .undefined ∨ v = .null ∨ v = .value "") : orNone v = "None" := by
  rcases h with rfl | rfl | rfl <;> rfl

theorem matchResponse_keys_sublist (w : User) (m : JSNumber) :
    List.Sublist ((matchResponse w m).body.map Prod.fst) matchBodyKeys := by
  cases hc : w.emergencyContact <;> cases hb : w.bloodGroup <;>
    simp [matchResponse, userData, optionalField, hc, hb, matchBodyKeys]

/-- Counterexample to C29 as stated: for the match of the sample gallery, whose
best entry has `emergencyContact` and `bloodGroup` unset, the body
has eight keys and not the ten that the claim lists. -/
theorem verify_match_body_lacks_optional_keys :
    (verify (sampleEnv sampleGallery) sampleRequest).response.status = 200 ∧
      (verify (sampleEnv sampleGallery) sampleRequest).response.body.map Prod.fst =
        ["message", "name", "aadharNumber", "allergies", "pastSurgery",
          "otherMedicalConditions", "photo", "confidence"] ∧
      (verify (sampleEnv sampleGallery) sampleRequest).response.body.map Prod.fst ≠
        matchBodyKeys ∧
      "emergencyContact" ∉
        (verify (sampleEnv sampleGallery) sampleRequest).response.body.map Prod.fst := by
  rw [sample_response]
  refine ⟨rfl, rfl, ?_, ?_⟩
  · show ["message", "name", "aadharNumber", "allergies", "pastSurgery",
      "otherMedicalConditions", "photo", "confidence"] ≠ matchBodyKeys
    decide
  · show "emergencyContact" ∉ ["message", "name", "aadharNumber", "allergies", "pastSurgery",
      "otherMedicalConditions", "photo", "confidence"]
    decide

theorem nullField_status :
    (verify (sampleEnv nullFieldGallery) sampleRequest).response.status = 200 := by
  have hd : usableDistance (sampleEnv nullFieldGallery) [0] nullFieldUser = some (30 / 100) := by
    simp [usableDistance, processUser, sampleEnv, nullFieldUser]
    norm_num
  have hfold : nullFieldGallery.foldl (scanStep (sampleEnv nullFieldGallery) [0])
      ⟨none, .infinity⟩ = ⟨some nullFieldUser, .finite (30 / 100)⟩ :=
    foldl_scanStep_first_min (sampleEnv nullFieldGallery) [0] [] [] nullFieldUser (30 / 100) hd
      (by simp) (by simp)
  rw [verify_response _ _ [0] _ (reaches_sample nullFieldGallery), if_neg (by decide), hfold,
    decideMatch_some, if_neg (by norm_num [MATCH_THRESHOLD])]
  rfl

/-- C29 (amended): the body of a match is made of `message`, `name` and
`aadharNumber`, then `emergencyContact` and `bloodGroup` unless the matched
record leaves them unset (a stored `null` is sent as `null`, a string as it is,
an `undefined` is dropped), then `allergies`, `pastSurgery`,
`otherMedicalConditions`, `photo` and `confidence`, all taken from the
best-matching entry `w` alone; its keys are among the ten keys of the source and
`password` is not one of them; the body does not depend on the stored password
hash; and the three medical fields are `None` when the stored value is unset,
`null` or empty. -/
theorem verify_match_body (env : Env) (req : Request) (q : Descriptor) (users : List User)
    (h : ReachesMatching env req q users) (hs : (verify env req).response.status = 200) :
    ∃ w ∈ users, ∃ d, usableDistance env q w = some d ∧
      (∀ v ∈ users, ∀ e, usableDistance env q v = some e → d ≤ e) ∧
      (∃ c, (verify env req).response.body =
        [("message", .str "Match found"), ("name", .str w.name),
            ("aadharNumber", .str w.aadharNumber)]
          ++ optionalField "emergencyContact" w.emergencyContact
          ++ optionalField "bloodGroup" w.bloodGroup
          ++ [("allergies", .str (orNone w.allergies)),
            ("pastSurgery", .str (orNone w.pastSurgery)),
            ("otherMedicalConditions", .str (orNone w.otherMedicalConditions)),
            ("photo", match w.photo with
                      | some photo => .base64 photo
                      | none => .null),
            ("confidence", .str c)]) ∧
      ("emergencyContact" ∈ (verify env req).response.body.map Prod.fst ↔
        w.emergencyContact ≠ .undefined) ∧
      ("bloodGroup" ∈ (verify env req).response.body.map Prod.fst ↔
        w.bloodGroup ≠ .undefined) ∧
      (w.emergencyContact = .null →
        (verify env req).response.body.lookup "emergencyContact" = some .null) ∧
      (w.bloodGroup = .null →
        (verify env req).response.body.lookup "bloodGroup" = some .null) ∧
      List.Sublist ((verify env req).response.body.map Prod.fst) matchBodyKeys ∧
      "password" ∉ (verify env req).response.body.map Prod.fst ∧
      (∀ p, matchResponse (setPassword w p) (.finite d) = (verify env req).response) ∧
      (verify env req).response.body.lookup "allergies" = some (.str (orNone w.allergies)) ∧
      (verify env req).response.body.lookup "pastSurgery" =
        some (.str (orNone w.pastSurgery)) ∧
      (verify env req).response.body.lookup "otherMedicalConditions" =
        some (.str (orNone w.otherMedicalConditions)) ∧
      (∀ v, (v = .undefined ∨ v = .null ∨ v = .value "") → orNone v = "None") := by
  obtain ⟨w, hw, d, hd, hmin, _, hresp⟩ := verify_match_shape env req q users h hs
  refine ⟨w, hw, d, hd, hmin, ⟨confidence (.finite d) ++ "%", ?_⟩, ?_, ?_, ?_, ?_, ?_, ?_, ?_,
    ?_, ?_, ?_, orNone_of_empty⟩
  · rw [hresp]
    simp [matchResponse, userData]
  · rw [hresp]
    cases hc : w.emergencyContact <;> cases hb : w.bloodGroup <;>
      simp [matchResponse, userData, optionalField, hc, hb]
  · rw [hresp]
    cases hc : w.emergencyContact <;> cases hb : w.bloodGroup <;>
      simp [matchResponse, userData, optionalField, hc, hb]
  · intro hnull
    rw [hresp]
    simp [matchResponse, userData, optionalField, hnull, List.lookup]
  · intro hnull
    rw [hresp]
    cases hc : w.emergencyContact <;>
      simp [matchResponse, userData, optionalField, hnull, hc, List.lookup]
  · rw [hresp]
    exact matchResponse_keys_sublist w _
  · rw [hresp]
    intro hmem
    have hsub := (matchResponse_keys_sublist w (.finite d)).subset hmem
    revert hsub
    decide
  · intro p
    rw [hresp]
    rfl
  · rw [hresp]
    cases hc : w.emergencyContact <;> cases hb : w.bloodGroup <;>
      simp [matchResponse, userData, optionalField, hc, hb, List.lookup]
  · rw [hresp]
    cases hc : w.emergencyContact <;> cases hb : w.bloodGroup <;>
      simp [matchResponse, userData, optionalField, hc, hb, List.lookup]
  · rw [hresp]
    cases hc : w.emergencyContact <;> cases hb : w.bloodGroup <;>
      simp [matchResponse, userData, optionalField, hc, hb, List.lookup]

theorem verify_match_body_witness :
    ∃ w ∈ nullFieldGallery, ∃ d,
      usableDistance (sampleEnv nullFieldGallery) [0] w = some d ∧
      (∀ v ∈ nullFieldGallery, ∀ e,
        usableDistance (sampleEnv nullFieldGallery) [0] v = some e → d ≤ e) ∧
      (∃ c, (verify (sampleEnv nullFieldGallery) sampleRequest).response.body =
        [("message", .str "Match found"), ("name", .str w.name),
            ("aadharNumber", .str w.aadharNumber)]
          ++ optionalField "emergencyContact" w.emergencyContact
          ++ optionalField "bloodGroup" w.bloodGroup
          ++ [("allergies", .str (orNone w.allergies)),
            ("pastSurgery", .str (orNone w.pastSurgery)),
            ("otherMedicalConditions", .str (orNone w.otherMedicalConditions)),
            ("photo", match w.photo with
                      | some photo => .base64 photo
                      | none => .null),
            ("confidence", .str c)]) ∧
      ("emergencyContact" ∈
          (verify (sampleEnv nullFieldGallery) sampleRequest).response.body.map Prod.fst ↔
        w.emergencyContact ≠ .undefined) ∧
      ("bloodGroup" ∈
          (verify (sampleEnv nullFieldGallery) sampleRequest).response.body.map Prod.fst ↔
        w.bloodGroup ≠ .undefined) ∧
      (w.emergencyContact = .null →
        (verify (sampleEnv nullFieldGallery) sampleRequest).response.body.lookup
          "emergencyContact" = some .null) ∧
      (w.bloodGroup = .null →
        (verify (sampleEnv nullFieldGallery) sampleRequest).response.body.lookup
          "bloodGroup" = some .null) ∧
      List.Sublist
        ((verify (sampleEnv nullFieldGallery) sampleRequest).response.body.map Prod.fst)
        matchBodyKeys ∧
      "password" ∉
        (verify (sampleEnv nullFieldGallery) sampleRequest).response.body.map Prod.fst ∧
      (∀ p, matchResponse (setPassword w p) (.finite d) =
        (verify (sampleEnv nullFieldGallery) sampleRequest).response) ∧
      (verify (sampleEnv nullFieldGallery) sampleRequest).response.body.lookup "allergies" =
        some (.str (orNone w.allergies)) ∧
      (verify (sampleEnv nullFieldGallery) sampleRequest).response.body.lookup "pastSurgery" =
        some (.str (orNone w.pastSurgery)) ∧
      (verify (sampleEnv nullFieldGallery) sampleRequest).response.body.lookup
          "otherMedicalConditions" = some (.str (orNone w.otherMedicalConditions)) ∧
      (∀ v, (v = .undefined ∨ v = .null ∨ v = .value "") → orNone v = "None") :=
  verify_match_body (sampleEnv nullFieldGallery) sampleRequest [0] nullFieldGallery
    (reaches_sample nullFieldGallery) nullField_status

/-! ## The fixed threshold -/

theorem matchResponse_name (w : User) (m : JSNumber) :
    (matchResponse w m).body.lookup "name" = some (.str w.name) := by
  simp [matchResponse, userData, List.lookup]

/-- Counterexample to C17 as stated: the handler has no threshold to configure,
`MATCH_THRESHOLD` being the constant 0.6 of line 695, and for the gallery
A = 0.8, B = 0.45, C = 0.61 it answers with the match of B (status 200), which
is not NoGalleryMatch. -/
theorem verify_example_is_not_no_match :
    (verify (sampleEnv sampleGallery) sampleRequest).response.status = 200 ∧
      (verify (sampleEnv sampleGallery) sampleRequest).response.body.lookup "name" =
        some (.str "B") ∧
      resultKind (verify (sampleEnv sampleGallery) sampleRequest).response =
        ResultKind.Identified ∧
      resultKind (verify (sampleEnv sampleGallery) sampleRequest).response ≠
        ResultKind.NoGalleryMatch := by
  rw [sample_response, matchResponse_name]
  refine ⟨rfl, rfl, ?_, ?_⟩ <;> simp [resultKind, matchResponse]

/-- C17 (amended): the threshold of the handler is the constant 0.6; for a run
that reaches the scan of the snapshot `[a, b, c]` with distances 0.8, 0.45 and
0.61 the result is the match of `b` (Identified, status 200), and for the same
snapshot without `b`, whose minimum 0.61 is above 0.6, the result is the 404
no-match response (NoGalleryMatch). -/
theorem verify_example_fixed_threshold (env : Env) (req : Request) (q : Descriptor)
    (a b c : User) (h : ReachesMatching (withSnapshot env [a, b, c]) req q [a, b, c])
    (ha : usableDistance env q a = some (8 / 10)) (hb : usableDistance env q b = some (45 / 100))
    (hc : usableDistance env q c = some (61 / 100)) :
    MATCH_THRESHOLD = 6 / 10 ∧
      (verify (withSnapshot env [a, b, c]) req).response.status = 200 ∧
      (verify (withSnapshot env [a, b, c]) req).response.body.lookup "name" =
        some (.str b.name) ∧
      resultKind (verify (withSnapshot env [a, b, c]) req).response = ResultKind.Identified ∧
      (verify (withSnapshot env [a, c]) req).response = noMatchResponse ∧
      (verify (withSnapshot env [a, c]) req).response.status = 404 ∧
      resultKind (verify (withSnapshot env [a, c]) req).response =
        ResultKind.NoGalleryMatch := by
  have hwith : (verify (withSnapshot env [a, b, c]) req).response =
      matchResponse b (.finite (45 / 100)) := by
    rw [verify_response_withSnapshot env req q _ h, if_neg (by simp),
      example_fold env q a b c ha hb hc, decideMatch_some,
      if_neg (by norm_num [MATCH_THRESHOLD])]
  have hfold : [a, c].foldl (scanStep env q) ⟨none, .infinity⟩ =
      ⟨some c, .finite (61 / 100)⟩ := by
    refine foldl_scanStep_first_min env q [a] [] c (61 / 100) hc ?_ (by simp)
    intro u hu e he
    rw [List.mem_singleton] at hu
    subst hu
    rw [ha] at he
    cases he
    norm_num
  have hwithout : (verify (withSnapshot env [a, c]) req).response = noMatchResponse := by
    rw [verify_response_withSnapshot env req q _ (reaches_withSnapshot h [a, c]),
      if_neg (by simp), hfold, decideMatch_some, if_pos (by norm_num [MATCH_THRESHOLD])]
  rw [hwith, hwithout, matchResponse_name]
  exact ⟨rfl, rfl, rfl, by simp [resultKind, matchResponse], rfl, rfl,
    by simp [resultKind, noMatchResponse]⟩

theorem verify_example_fixed_threshold_witness :
    MATCH_THRESHOLD = 6 / 10 ∧
      (verify (withSnapshot (sampleEnv []) sampleGallery) sampleRequest).response.status = 200 ∧
      (verify (withSnapshot (sampleEnv []) sampleGallery) sampleRequest).response.body.lookup
        "name" = some (.str "B") ∧
      resultKind (verify (withSnapshot (sampleEnv []) sampleGallery) sampleRequest).response =
        ResultKind.Identified ∧
      (verify (withSnapshot (sampleEnv []) farGallery) sampleRequest).response =
        noMatchResponse ∧
      (verify (withSnapshot (sampleEnv []) farGallery) sampleRequest).response.status = 404 ∧
      resultKind (verify (withSnapshot (sampleEnv []) farGallery) sampleRequest).response =
        ResultKind.NoGalleryMatch :=
  verify_example_fixed_threshold (sampleEnv []) sampleRequest [0]
    (sampleUser "A" (some [80])) (sampleUser "B" (some [45])) (sampleUser "C" (some [61]))
    (reaches_sample sampleGallery)
    (by rw [usableDistance_sample]; norm_num)
    (by simpa using usableDistance_sample [] "B" 45)
    (by simpa using usableDistance_sample [] "C" 61)

end FaceDx
